import Mathlib

/-!
# school-attendance frontend: session, localization and route guard

A shallow embedding of `frontend/src/contexts/AuthContext.jsx`,
`frontend/src/contexts/I18nContext.jsx`, the response interceptor of
`frontend/src/services/api.js`, the route table of `frontend/src/App.jsx`,
the navigation of `frontend/src/components/Sidebar.jsx`, and the handlers
`handleExport` of `frontend/src/pages/Reports.jsx` and
`handleAttendanceChange`, `handleRemarksChange` of
`frontend/src/pages/Attendance.jsx`.

* JavaScript values that can reach the session (JSON payloads, `null`,
  `undefined`) are the type `JsVal`; numbers are integers.
* `localStorage` is an association list of string entries.
* React state (`user`, `token`, `loading`), `localStorage` and the optional
  `window.axios.defaults.headers.common` object form one record `World`;
  every operation of the provider is a function on `World`.
* The outcome of a `fetch` call is an input of the operation (`FetchResult`).
* A raised JavaScript exception is a value of `JsError`; only its `message`
  is ever observed by the source.
* An `async` function that suspends at a request is split in two functions,
  the part before the suspension and the part run when the request settles;
  interleavings of several calls are sequences of `I18nContext.Event`.
-/

set_option autoImplicit false

/-! ## JavaScript values -/

/-- JavaScript values reachable from JSON payloads, plus `undefined`. -/
inductive JsVal where
  | undefined
  | null
  | bool (b : Bool)
  | num (n : Int)
  | str (s : String)
  | arr (items : List JsVal)
  | obj (props : List (String × JsVal))
  deriving Repr, Inhabited

/-- A raised exception; `message` is what `error.message` reads. -/
structure JsError where
  message : String
  deriving Repr, DecidableEq, Inhabited

namespace JsVal

/-- ToBoolean: `!!v`. -/
def truthy : JsVal → Bool
  | undefined => false
  | null => false
  | bool b => b
  | num n => n != 0
  | str s => s != ""
  | arr _ => true
  | obj _ => true

/-- The operator `a || b` on already evaluated operands. -/
def or (a b : JsVal) : JsVal := if a.truthy then a else b

/-- Nullish test: `v == null`. -/
def isNullish : JsVal → Bool
  | undefined => true
  | null => true
  | _ => false

/-- Own property lookup in a property list (first match). -/
def lookup (key : String) : List (String × JsVal) → JsVal
  | [] => undefined
  | (k, v) :: rest => if k = key then v else lookup key rest

/-- Property read `v.key` for the property names the source uses (none of
them is a built-in member of strings, arrays or `Object.prototype`):
a TypeError on `null` and `undefined`, the own property of an object,
`undefined` on every other value. -/
def getProp (v : JsVal) (key : String) : Except JsError JsVal :=
  match v with
  | undefined =>
      .error ⟨"Cannot read properties of undefined (reading \x27" ++ key ++ "\x27)"⟩
  | null =>
      .error ⟨"Cannot read properties of null (reading \x27" ++ key ++ "\x27)"⟩
  | obj props => .ok (lookup key props)
  | _ => .ok undefined

/-- Optional chaining `v?.key`. -/
def getPropOpt (v : JsVal) (key : String) : JsVal :=
  match v with
  | obj props => lookup key props
  | _ => undefined

mutual
/-- ToString: `String(v)`, as used by `localStorage.setItem`, `new Error(v)`
and property keys. Arrays join their items; a plain object prints as
`[object Object]`. -/
def toStr : JsVal → String
  | undefined => "undefined"
  | null => "null"
  | bool true => "true"
  | bool false => "false"
  | num n => toString n
  | str s => s
  | arr xs => joinItems xs
  | obj _ => "[object Object]"
termination_by structural v => v
/-- The method `Array.prototype.join` with the default separator. -/
def joinItems : List JsVal → String
  | [] => ""
  | x :: rest =>
    (match x with
     | undefined => ""
     | null => ""
     | v => toStr v) ++ (if rest.isEmpty then "" else ",") ++ joinItems rest
termination_by structural xs => xs
end

/-- Strict equality `a === b` (also SameValueZero on these values).
Arrays and objects compare by reference; two values obtained from
different places are never the same reference. -/
def strictEq : JsVal → JsVal → Bool
  | undefined, undefined => true
  | null, null => true
  | bool a, bool b => a == b
  | num a, num b => a == b
  | str a, str b => a == b
  | _, _ => false

/-- The call `xs.includes(v)`. -/
def includes (xs : List JsVal) (v : JsVal) : Bool := xs.any (fun x => strictEq x v)

end JsVal

/-! ## JSON.stringify and JSON.parse

The two built-ins as the source uses them: `JSON.stringify(value)` on a
plain object and `JSON.parse(text)`. Arbitrary text is accepted; numerals are
integers, as in `JsVal`. -/

namespace JSON
open JsVal

/-- Lower-case hexadecimal digit of a number below 16. -/
def hexDigit (n : Nat) : Char :=
  if n < 10 then Char.ofNat (48 + n) else Char.ofNat (87 + n)

/-- QuoteJSONString on one character. -/
def escapeChar (c : Char) : List Char :=
  if c = '\"' then ['\\', '\"']
  else if c = '\\' then ['\\', '\\']
  else if c = '\x08' then ['\\', 'b']
  else if c = '\x0c' then ['\\', 'f']
  else if c = '\n' then ['\\', 'n']
  else if c = '\r' then ['\\', 'r']
  else if c = '\t' then ['\\', 't']
  else if c.toNat < 32 then ['\\', 'u', '0', '0', hexDigit (c.toNat / 16), hexDigit (c.toNat % 16)]
  else [c]

/-- QuoteJSONString. -/
def quote (s : String) : String :=
  "\"" ++ String.mk (s.data.flatMap escapeChar) ++ "\""

mutual
/-- SerializeJSONProperty for a value that is not `undefined`. -/
def stringify : JsVal → String
  | undefined => "null"
  | null => "null"
  | .bool true => "true"
  | .bool false => "false"
  | num n => toString n
  | str s => quote s
  | arr xs => "[" ++ stringifyItems xs ++ "]"
  | obj ps => "\x7b" ++ stringifyProps false ps ++ "\x7d"
termination_by structural v => v
/-- SerializeJSONArray: items separated by commas, `undefined` printed as `null`. -/
def stringifyItems : List JsVal → String
  | [] => ""
  | x :: rest => stringify x ++ (if rest.isEmpty then "" else ",") ++ stringifyItems rest
termination_by structural xs => xs
/-- SerializeJSONObject: members whose value is `undefined` are left out;
`sep` tells whether a member was already written. -/
def stringifyProps (sep : Bool) : List (String × JsVal) → String
  | [] => ""
  | (k, v) :: rest =>
    match v with
    | undefined => stringifyProps sep rest
    | v => (if sep then "," else "") ++ quote k ++ ":" ++ stringify v ++ stringifyProps true rest
termination_by structural ps => ps
end

/-- Skip JSON white space. -/
def skipWs : List Char → List Char
  | [] => []
  | c :: cs => if c = ' ' ∨ c = '\t' ∨ c = '\n' ∨ c = '\r' then skipWs cs else c :: cs

/-- Value of a hexadecimal digit. -/
def hexVal (c : Char) : Option Nat :=
  if '0' ≤ c ∧ c ≤ '9' then some (c.toNat - 48)
  else if 'a' ≤ c ∧ c ≤ 'f' then some (c.toNat - 87)
  else if 'A' ≤ c ∧ c ≤ 'F' then some (c.toNat - 55)
  else none

/-- Characters of a string literal after the opening quote, up to and
including the closing quote. An escape for a surrogate code unit is not
representable and is rejected. -/
def parseChars : List Char → List Char → Option (String × List Char)
  | [], _ => none
  | '\"' :: rest, acc => some (String.mk acc.reverse, rest)
  | '\\' :: 'u' :: a :: b :: c :: d :: rest, acc =>
    match hexVal a, hexVal b, hexVal c, hexVal d with
    | some x, some y, some z, some w =>
      let n := ((x * 16 + y) * 16 + z) * 16 + w
      if 0xd800 ≤ n ∧ n ≤ 0xdfff then none else parseChars rest (Char.ofNat n :: acc)
    | _, _, _, _ => none
  | '\\' :: e :: rest, acc =>
    if e = '\"' then parseChars rest ('\"' :: acc)
    else if e = '\\' then parseChars rest ('\\' :: acc)
    else if e = '/' then parseChars rest ('/' :: acc)
    else if e = 'b' then parseChars rest ('\x08' :: acc)
    else if e = 'f' then parseChars rest ('\x0c' :: acc)
    else if e = 'n' then parseChars rest ('\n' :: acc)
    else if e = 'r' then parseChars rest ('\r' :: acc)
    else if e = 't' then parseChars rest ('\t' :: acc)
    else none
  | c :: rest, acc =>
    if c = '\\' ∨ c.toNat < 32 then none else parseChars rest (c :: acc)

/-- A run of decimal digits and what follows it. -/
def takeDigits : List Char → List Char → List Char × List Char
  | c :: cs, acc => if c.isDigit then takeDigits cs (c :: acc) else (acc.reverse, c :: cs)
  | [], acc => (acc.reverse, [])

/-- Value of a run of decimal digits. -/
def digitsVal (ds : List Char) : Nat := ds.foldl (fun n c => 10 * n + (c.toNat - 48)) 0

/-- An integer numeral: `0` or a digit run without leading zero. A numeral
that continues with a fraction or an exponent is outside the modelled
number type and is rejected. -/
def parseNat (cs : List Char) : Option (Nat × List Char) :=
  match takeDigits cs [] with
  | ([], _) => none
  | (d :: ds, rest) =>
    if d = '0' ∧ ds ≠ [] then none
    else match rest with
      | '.' :: _ => none
      | 'e' :: _ => none
      | 'E' :: _ => none
      | _ => some (digitsVal (d :: ds), rest)

/-- Set a member of an object under construction: a repeated key keeps its
place and takes the later value. -/
def setProp (k : String) (v : JsVal) : List (String × JsVal) → List (String × JsVal)
  | [] => [(k, v)]
  | (k', v') :: rest => if k' = k then (k, v) :: rest else (k', v') :: setProp k v rest

mutual
/-- A JSON value after optional white space; `fuel` bounds the nesting and
length of the text. -/
def parseValue : Nat → List Char → Option (JsVal × List Char)
  | 0, _ => none
  | fuel + 1, cs =>
    match skipWs cs with
    | 'n' :: 'u' :: 'l' :: 'l' :: rest => some (null, rest)
    | 't' :: 'r' :: 'u' :: 'e' :: rest => some (.bool true, rest)
    | 'f' :: 'a' :: 'l' :: 's' :: 'e' :: rest => some (.bool false, rest)
    | '\"' :: rest =>
      match parseChars rest [] with
      | some (s, rest') => some (str s, rest')
      | none => none
    | '[' :: rest =>
      match skipWs rest with
      | ']' :: rest' => some (arr [], rest')
      | _ => parseItems fuel rest []
    | '{' :: rest =>
      match skipWs rest with
      | '}' :: rest' => some (obj [], rest')
      | _ => parseMembers fuel rest []
    | '-' :: rest =>
      match parseNat rest with
      | some (n, rest') => some (num (-(n : Int)), rest')
      | none => none
    | rest =>
      match parseNat rest with
      | some (n, rest') => some (num (n : Int), rest')
      | none => none
/-- Items of a non-empty array after the opening bracket. -/
def parseItems : Nat → List Char → List JsVal → Option (JsVal × List Char)
  | 0, _, _ => none
  | fuel + 1, cs, acc =>
    match parseValue fuel cs with
    | none => none
    | some (v, rest) =>
      match skipWs rest with
      | ',' :: rest' => parseItems fuel rest' (v :: acc)
      | ']' :: rest' => some (arr (v :: acc).reverse, rest')
      | _ => none
/-- Members of a non-empty object after the opening brace. -/
def parseMembers : Nat → List Char → List (String × JsVal) → Option (JsVal × List Char)
  | 0, _, _ => none
  | fuel + 1, cs, acc =>
    match skipWs cs with
    | '\"' :: rest =>
      match parseChars rest [] with
      | none => none
      | some (k, rest1) =>
        match skipWs rest1 with
        | ':' :: rest2 =>
          match parseValue fuel rest2 with
          | none => none
          | some (v, rest3) =>
            match skipWs rest3 with
            | ',' :: rest4 => parseMembers fuel rest4 (setProp k v acc)
            | '}' :: rest4 => some (obj (setProp k v acc), rest4)
            | _ => none
        | _ => none
    | _ => none
end

/-- The call `JSON.parse(text)`: the value of the text, or a SyntaxError. -/
def parse (text : String) : Except JsError JsVal :=
  match parseValue (text.length + 1) text.data with
  | some (v, rest) =>
    match skipWs rest with
    | [] => .ok v
    | _ => .error ⟨"Unexpected non-whitespace character after JSON"⟩
  | none => .error ⟨"Unexpected token in JSON"⟩

end JSON

/-! ## localStorage -/

/-- The entries of `localStorage`. -/
abbrev Storage := List (String × String)

namespace Storage

/-- The call `localStorage.getItem(key)`; `none` is `null`. -/
def getItem (s : Storage) (key : String) : Option String :=
  match s with
  | [] => none
  | (k, v) :: rest => if k = key then some v else getItem rest key

/-- The call `localStorage.removeItem(key)`. -/
def removeItem (s : Storage) (key : String) : Storage :=
  s.filter (fun e => e.1 != key)

/-- The call `localStorage.setItem(key, value)`. -/
def setItem (s : Storage) (key value : String) : Storage :=
  (key, value) :: removeItem s key

end Storage

/-! ## The provider state -/

/-- React state of `AuthProvider` together with the browser state it touches. -/
structure World where
  /-- State `user`, from `useState(null)`. -/
  user : JsVal
  /-- State `token`, from `useState(null)`. -/
  token : JsVal
  /-- State `loading`, from `useState(true)`. -/
  loading : Bool
  /-- The browser `localStorage`. -/
  storage : Storage
  /-- The object `window.axios?.defaults?.headers?.common`: `none` when that object does
  not exist, otherwise its `Authorization` entry. -/
  axiosCommon : Option (Option String)
  deriving Repr

namespace AuthContext

open JsVal Storage

/-- State of a freshly mounted provider over the given browser state. -/
def mount (storage : Storage) (axiosCommon : Option (Option String)) : World :=
  { user := null, token := null, loading := true, storage := storage, axiosCommon := axiosCommon }

/-- The context value `isAuthenticated: !!token && !!user`. -/
def isAuthenticated (w : World) : Bool := w.token.truthy && w.user.truthy

/-- Result of `localStorage.getItem` as a JavaScript value. -/
def ofItem : Option String → JsVal
  | none => null
  | some s => str s

/-- The effect run once on mount ("Load user data from localStorage on app
start"). An exception raised by `JSON.parse` leaves the effect before
`setLoading(false)`. -/
def restoreSession (w : World) : Except JsError World :=
  let savedToken := ofItem (w.storage.getItem "token")
  let savedUser := ofItem (w.storage.getItem "user")
  if savedToken.truthy && savedUser.truthy then
    match JSON.parse (toStr savedUser) with
    | .error e => .error e
    | .ok parsed =>
      .ok { w with
            token := savedToken
            user := parsed
            axiosCommon := w.axiosCommon.map (fun _ => some ("Bearer " ++ toStr savedToken))
            loading := false }
  else
    .ok { w with loading := false }

/-- Outcome of `await fetch(...)` followed by `await response.json()`:
the request is rejected (network error), or a response arrives with its `ok`
flag and the outcome of reading its body as JSON. -/
inductive FetchResult where
  | rejected (error : JsError)
  | response (ok : Bool) (json : Except JsError JsVal)

/-- The expression `data.error || data.message || 'Login failed'`. -/
def loginFailureValue (data : JsVal) : Except JsError JsVal :=
  match getProp data "error" with
  | .error e => .error e
  | .ok err =>
    if err.truthy then .ok err
    else
      match getProp data "message" with
      | .error e => .error e
      | .ok msg => if msg.truthy then .ok msg else .ok (str "Login failed")

/-- The statement `throw new Error(data.error || data.message || 'Login failed')`. -/
def throwLoginFailure (data : JsVal) : JsError :=
  match loginFailureValue data with
  | .error e => e
  | .ok v => ⟨toStr v⟩

/-- The object literal `{ id: data.user.id, username: data.user.username,
role: data.user.role }`. -/
def userRecord (data : JsVal) : Except JsError JsVal :=
  match getProp data "user" with
  | .error e => .error e
  | .ok u =>
    match getProp u "id", getProp u "username", getProp u "role" with
    | .ok id, .ok username, .ok role =>
      .ok (obj [("id", id), ("username", username), ("role", role)])
    | .error e, _, _ => .error e
    | _, .error e, _ => .error e
    | _, _, .error e => .error e

/-- The `try` block of `login`: the state reached and either the returned
`data` or the exception raised. Effects performed before an exception stay. -/
def loginTry (r : FetchResult) (w : World) : World × Except JsError JsVal :=
  match r with
  | .rejected e => (w, .error e)
  | .response ok json =>
    match json with
    | .error e => (w, .error e)
    | .ok data =>
      if !ok then (w, .error (throwLoginFailure data))
      else
        match getProp data "success" with
        | .error e => (w, .error e)
        | .ok success =>
          if !success.truthy then (w, .error (throwLoginFailure data))
          else
            match getProp data "token" with
            | .error e => (w, .error e)
            | .ok token =>
              -- localStorage.setItem('token', data.token)
              let w1 := { w with storage := w.storage.setItem "token" (toStr token) }
              match userRecord data with
              | .error e => (w1, .error e)
              | .ok record =>
                -- localStorage.setItem('user', JSON.stringify({...}))
                let w2 := { w1 with storage := w1.storage.setItem "user" (JSON.stringify record) }
                -- setToken(data.token); setUser({...}); Authorization header
                let w3 := { w2 with
                            token := token
                            user := record
                            axiosCommon :=
                              w2.axiosCommon.map (fun _ => some ("Bearer " ++ toStr token)) }
                (w3, .ok data)

/-- The function `login(credentials)`: the `try` block, with the `catch` turning every
exception into `{ success: false, error: error.message }`. The credentials
only shape the request; the response is the argument `r`. -/
def login (_credentials : JsVal) (r : FetchResult) (w : World) : World × JsVal :=
  match loginTry r w with
  | (w1, .ok data) => (w1, obj [("success", bool true), ("data", data)])
  | (w1, .error e) => (w1, obj [("success", bool false), ("error", str e.message)])

/-- The function `logout()`. -/
def logout (w : World) : World :=
  { w with
    storage := (w.storage.removeItem "token").removeItem "user"
    token := null
    user := null
    axiosCommon := w.axiosCommon.map (fun _ => none) }

/-- The function `validateToken()`; `r` is the outcome of the validation request, which is
only issued when a token is held. -/
def validateToken (r : FetchResult) (w : World) : World × JsVal :=
  if !w.token.truthy then (w, bool false)
  else
    match r with
    | .rejected _ => (logout w, bool false)
    | .response ok json =>
      if !ok then (logout w, bool false)
      else
        match json with
        | .error _ => (logout w, bool false)
        | .ok data =>
          match getProp data "valid" with
          | .error _ => (logout w, bool false)
          | .ok valid => (w, valid)

/-- The function `hasRole(requiredRole)`. -/
def hasRole (w : World) (requiredRole : JsVal) : Bool :=
  match requiredRole with
  | arr roles => includes roles (getPropOpt w.user "role")
  | _ => strictEq (getPropOpt w.user "role") requiredRole

/-- The object literal `rolePermissions` of `hasPermission`. -/
def rolePermissions : List (String × List String) :=
  [ ("ADMIN",
      ["MANAGE_USERS", "MANAGE_STUDENTS", "MANAGE_TEACHERS", "MANAGE_ATTENDANCE",
       "VIEW_REPORTS", "EXPORT_REPORTS"]),
    ("TEACHER", ["MANAGE_ATTENDANCE", "VIEW_REPORTS", "VIEW_STUDENTS"]),
    ("STUDENT", ["VIEW_OWN_ATTENDANCE"]) ]

/-- Own entry of `rolePermissions` under a key. -/
def permissionsOf (key : String) : Option (List String) :=
  (rolePermissions.find? (fun e => e.1 = key)).map (fun e => e.2)

/-- Members every object literal inherits from `Object.prototype`. Reading
one of them from `rolePermissions` yields a function or object without an
`includes` method. -/
def objectPrototypeMembers : List String :=
  ["constructor", "__defineGetter__", "__defineSetter__", "hasOwnProperty",
   "__lookupGetter__", "__lookupSetter__", "isPrototypeOf", "propertyIsEnumerable",
   "toString", "valueOf", "__proto__", "toLocaleString"]

/-- The function `hasPermission(permission)`:
`rolePermissions[user.role]?.includes(permission) || false`. The property key
is `user.role` converted to a string; calling the missing `includes` of an
inherited member raises a TypeError. -/
def hasPermission (w : World) (permission : JsVal) : Except JsError Bool :=
  if !w.user.truthy then .ok false
  else
    let key := toStr (getPropOpt w.user "role")
    match permissionsOf key with
    | some perms => .ok (includes (perms.map str) permission || false)
    | none =>
      if key ∈ objectPrototypeMembers then
        .error ⟨"rolePermissions[user.role]?.includes is not a function"⟩
      else .ok false

/-! ### Concrete inputs used by the closed statements below -/

/-- Credentials of a sample login call. -/
def sampleCredentials : JsVal := obj [("username", str "amy"), ("password", str "pw")]

/-- The user record `{ id: 7, username: "amy", role: "ADMIN" }`. -/
def sampleUser : JsVal := obj [("id", num 7), ("username", str "amy"), ("role", str "ADMIN")]

/-- A complete login payload `{ success: true, token: "abc", user: {...} }`. -/
def samplePayload : JsVal :=
  obj [("success", bool true), ("token", str "abc"), ("user", sampleUser)]

/-- A login payload with the success flag and a token but without `user`:
`{ success: true, token: "abc" }`. -/
def payloadWithoutUser : JsVal := obj [("success", bool true), ("token", str "abc")]

/-- A logged-in state: the sample user with token `abc`, both persisted. -/
def sampleLoggedIn : World :=
  { user := sampleUser, token := str "abc", loading := false,
    storage := [("user", JSON.stringify sampleUser), ("token", "abc")],
    axiosCommon := some (some "Bearer abc") }

/-- Storage whose `user` entry is the single character of an opening brace,
which is not JSON. -/
def corruptStorage : Storage := [("token", "abc"), ("user", "\x7b")]

end AuthContext

/-! ## Strings and object literals -/

namespace JsString

/-- Split a text at the first occurrence of a pattern: the part before the
match and the part after it. -/
def splitAtFirst (pat : List Char) : List Char → Option (List Char × List Char)
  | [] => if pat.isEmpty then some ([], []) else none
  | c :: cs =>
    if pat.isPrefixOf (c :: cs) then some ([], (c :: cs).drop pat.length)
    else
      match splitAtFirst pat cs with
      | some (before, after) => some (c :: before, after)
      | none => none

/-- GetSubstitution for a string pattern (no capture groups): in the
replacement text `$$` is a dollar sign, `$&` the match, a dollar sign with a
grave accent the text before the match, a dollar sign with an apostrophe the
text after it; any other character stands for itself. -/
def expandReplacement (matched before after : List Char) : List Char → List Char
  | [] => []
  | '$' :: '$' :: rest => '$' :: expandReplacement matched before after rest
  | '$' :: '&' :: rest => matched ++ expandReplacement matched before after rest
  | '$' :: '\x60' :: rest => before ++ expandReplacement matched before after rest
  | '$' :: '\x27' :: rest => after ++ expandReplacement matched before after rest
  | c :: rest => c :: expandReplacement matched before after rest

/-- The method `String.prototype.replace(pattern, replacement)` with a string pattern:
only the first occurrence of the pattern is replaced. -/
def replace (s pattern replacement : String) : String :=
  match splitAtFirst pattern.data s.data with
  | none => s
  | some (before, after) =>
    String.mk (before ++ expandReplacement pattern.data before after replacement.data ++ after)

/-- The method `String.prototype.toUpperCase()` on ASCII text; other
characters are left as they are. -/
def toUpperCase (s : String) : String := String.mk (s.data.map Char.toUpper)

end JsString

namespace JsVal

/-- Own property of a property list, if there is one (first match). -/
def own (key : String) (props : List (String × JsVal)) : Option JsVal :=
  (props.find? (fun e => e.1 = key)).map (fun e => e.2)

/-- Items of an array or characters of a string under their index keys. -/
def indexed (items : List JsVal) : List (String × JsVal) :=
  items.enum.map (fun e => (toString e.1, e.2))

/-- Own enumerable properties of a value, as the object spread `...v` copies
them: the members of an object, the indexed items of an array or string,
nothing for any other value. -/
def ownEntries : JsVal → List (String × JsVal)
  | obj props => props
  | arr items => indexed items
  | str s => indexed (s.data.map (fun c => str (String.singleton c)))
  | _ => []

/-- Copy the entries of `source` onto `target`, as `(...target, ...source)`
in an object literal does: a key already present keeps its place and takes the new
value, a new key is appended. -/
def mergeProps (target source : List (String × JsVal)) : List (String × JsVal) :=
  source.foldl (fun acc e => JSON.setProp e.1 e.2 acc) target

end JsVal

/-- What a member read `o[key]` on an object literal yields: a value, or a
built-in function or object inherited from `Object.prototype`. -/
inductive Member where
  | val (v : JsVal)
  | builtin (name : String)
  deriving Repr

namespace Member

/-- ToBoolean of a member; built-in functions and objects are truthy. -/
def truthy : Member → Bool
  | val v => v.truthy
  | builtin _ => true

end Member

/-! ## Localization state (I18nContext.jsx) -/

/-- An entry of `SUPPORTED_LANGUAGES`. -/
structure LanguageInfo where
  code : String
  name : String
  nativeName : String
  flag : String
  deriving Repr, DecidableEq

/-- React state of `I18nProvider` together with the browser state it touches. -/
structure I18nWorld where
  /-- State `currentLanguage`, from `useState('en')`. -/
  currentLanguage : JsVal
  /-- State `messages`, from `useState(defaultMessages)`: the members of the object. -/
  messages : List (String × JsVal)
  /-- State `loading`, from `useState(false)`. -/
  loading : Bool
  /-- The browser `localStorage`. -/
  storage : Storage
  /-- The attribute `document.documentElement.lang`. -/
  documentLang : String
  /-- The attribute `document.documentElement.dir`. -/
  documentDir : String
  /-- Language codes of the message requests issued so far, oldest first. -/
  fetched : List JsVal
  deriving Repr

namespace I18nContext

open JsVal Storage

/-- The constant `SUPPORTED_LANGUAGES`. -/
def SUPPORTED_LANGUAGES : List LanguageInfo :=
  [ ⟨"en", "English", "English", "🇺🇸"⟩,
    ⟨"hi", "Hindi", "हिंदी", "🇮🇳"⟩,
    ⟨"mr", "Marathi", "मराठी", "🇮🇳"⟩ ]

/-- The constant `defaultMessages`. -/
def defaultMessages : List (String × JsVal) :=
  [ ("app.name", str "School Attendance Management System"),
    ("nav.dashboard", str "Dashboard"),
    ("nav.students", str "Students"),
    ("nav.teachers", str "Teachers"),
    ("nav.attendance", str "Attendance"),
    ("nav.reports", str "Reports"),
    ("nav.settings", str "Settings"),
    ("nav.logout", str "Logout"),
    ("auth.login", str "Login"),
    ("auth.logout", str "Logout"),
    ("auth.username", str "Username"),
    ("auth.password", str "Password"),
    ("action.save", str "Save"),
    ("action.cancel", str "Cancel"),
    ("action.edit", str "Edit"),
    ("action.delete", str "Delete"),
    ("action.view", str "View"),
    ("action.add", str "Add"),
    ("accessibility.language.selector", str "Language Selector"),
    ("language.select", str "Select Language") ]

/-- The explicit members of the Hindi fallback literal in `loadMessages`. -/
def hindiOverrides : List (String × JsVal) :=
  [ ("app.name", str "स्कूल उपस्थिति प्रबंधन प्रणाली"),
    ("nav.dashboard", str "डैशबोर्ड"),
    ("nav.students", str "छात्र"),
    ("nav.teachers", str "शिक्षक"),
    ("nav.attendance", str "उपस्थिति"),
    ("nav.reports", str "रिपोर्ट"),
    ("nav.settings", str "सेटिंग्स"),
    ("auth.login", str "लॉगिन"),
    ("auth.username", str "उपयोगकर्ता नाम"),
    ("auth.password", str "पासवर्ड") ]

/-- The explicit members of the Marathi fallback literal in `loadMessages`. -/
def marathiOverrides : List (String × JsVal) :=
  [ ("app.name", str "शाळा उपस्थिती व्यवस्थापन प्रणाली"),
    ("nav.dashboard", str "डॅशबोर्ड"),
    ("nav.students", str "विद्यार्थी"),
    ("nav.teachers", str "शिक्षक"),
    ("nav.attendance", str "उपस्थिती"),
    ("nav.reports", str "अहवाल"),
    ("nav.settings", str "सेटिंग्ज"),
    ("auth.login", str "लॉगिन"),
    ("auth.username", str "वापरकर्ता नाव"),
    ("auth.password", str "पासवर्ड") ]

/-- State of a freshly mounted provider over the given browser state. -/
def mount (storage : Storage) (documentLang documentDir : String) : I18nWorld :=
  { currentLanguage := str "en", messages := defaultMessages, loading := false,
    storage := storage, documentLang := documentLang, documentDir := documentDir, fetched := [] }

/-- The first part of `loadMessages(languageCode)`, up to the suspension at
`await fetch(...)`: `setLoading(true)` and the request. -/
def loadMessagesStart (languageCode : JsVal) (s : I18nWorld) : I18nWorld :=
  { s with loading := true, fetched := s.fetched ++ [languageCode] }

/-- The local table chosen in the `else` branch of `loadMessages`
("Fallback to local translations"). -/
def fallbackMessages (languageCode : JsVal) : List (String × JsVal) :=
  if strictEq languageCode (str "hi") then mergeProps defaultMessages hindiOverrides
  else if strictEq languageCode (str "mr") then mergeProps defaultMessages marathiOverrides
  else mergeProps [] defaultMessages

/-- The argument of the `setMessages` call that `loadMessages(languageCode)`
makes once the request has settled with outcome `r`: in the `try` body after
the `await`, or in the `catch`. -/
def loadedMessages (languageCode : JsVal) (r : AuthContext.FetchResult) :
    List (String × JsVal) :=
  match r with
  | .rejected _ => defaultMessages
  | .response true (.error _) => defaultMessages
  | .response true (.ok data) => mergeProps (mergeProps [] defaultMessages) (ownEntries data)
  | .response false _ => fallbackMessages languageCode

/-- The rest of `loadMessages(languageCode)` once the request has settled
with outcome `r`: the `setMessages` call, then `setLoading(false)` in the
`finally`. -/
def loadMessagesFinish (languageCode : JsVal) (r : AuthContext.FetchResult) (s : I18nWorld) :
    I18nWorld :=
  { s with messages := loadedMessages languageCode r, loading := false }

/-- The function `loadMessages(languageCode)` run to completion with request
outcome `r`. -/
def loadMessages (languageCode : JsVal) (r : AuthContext.FetchResult) (s : I18nWorld) :
    I18nWorld :=
  loadMessagesFinish languageCode r (loadMessagesStart languageCode s)

/-- The first part of `changeLanguage(languageCode)`, up to the suspension
inside `await loadMessages(languageCode)`. -/
def changeLanguageStart (languageCode : JsVal) (s : I18nWorld) : I18nWorld :=
  if !strictEq languageCode s.currentLanguage then
    loadMessagesStart languageCode
      { s with
        currentLanguage := languageCode
        storage := s.storage.setItem "preferred-language" (toStr languageCode) }
  else s

/-- The rest of a `changeLanguage(languageCode)` call that issued a request,
once that request has settled with outcome `r`: the rest of `loadMessages`,
then "Update document language and direction". -/
def changeLanguageFinish (languageCode : JsVal) (r : AuthContext.FetchResult) (s : I18nWorld) :
    I18nWorld :=
  { loadMessagesFinish languageCode r s with
    documentLang := toStr languageCode
    documentDir :=
      if includes [str "ar", str "ur", str "fa"] languageCode then "rtl" else "ltr" }

/-- The function `changeLanguage(languageCode)` run to completion with request
outcome `r`. -/
def changeLanguage (languageCode : JsVal) (r : AuthContext.FetchResult) (s : I18nWorld) :
    I18nWorld :=
  if !strictEq languageCode s.currentLanguage then
    changeLanguageFinish languageCode r (changeLanguageStart languageCode s)
  else s

/-- An event of the provider as seen by the event loop: a call of
`changeLanguage(code)`, or the settling of the request issued by an earlier
call for `code`. -/
inductive Event where
  | request (code : JsVal)
  | response (code : JsVal) (result : AuthContext.FetchResult)

/-- One turn of the event loop. -/
def step (s : I18nWorld) : Event → I18nWorld
  | .request code => changeLanguageStart code s
  | .response code result => changeLanguageFinish code result s

/-- A sequence of turns, oldest first. -/
def run (s : I18nWorld) (events : List Event) : I18nWorld := events.foldl step s

/-- Member read `messages[key]`: the own member, otherwise a member
inherited from `Object.prototype`, otherwise `undefined`. -/
def readMessage (messages : List (String × JsVal)) (key : String) : Member :=
  match own key messages with
  | some v => .val v
  | none => if key ∈ AuthContext.objectPrototypeMembers then .builtin key else .val undefined

/-- One round of the `forEach` in `t`: `message.replace(placeholder,
params[param])`, the placeholder being `param` between braces. A message that
is not a string has no `replace` method. -/
def substitute (params : List (String × JsVal)) (message : Except JsError Member)
    (param : String) : Except JsError Member :=
  match message with
  | .error e => .error e
  | .ok (.val (str text)) =>
    .ok (.val (str
      (JsString.replace text ("\x7b" ++ param ++ "\x7d") (toStr (lookup param params)))))
  | .ok _ => .error ⟨"message.replace is not a function"⟩

/-- The function `t(key, params)`; `params` are the members of the params
object, `[]` for the default empty object. -/
def t (messages : List (String × JsVal)) (key : String) (params : List (String × JsVal)) :
    Except JsError Member :=
  let found := readMessage messages key
  let message : Member := if found.truthy then found else .val (str key)
  (params.map (fun e => e.1)).foldl (substitute params) (.ok message)

/-- The function `getCurrentLanguage()`. -/
def getCurrentLanguage (s : I18nWorld) : LanguageInfo :=
  match SUPPORTED_LANGUAGES.find? (fun lang => strictEq (str lang.code) s.currentLanguage) with
  | some lang => lang
  | none => SUPPORTED_LANGUAGES.get ⟨0, by decide⟩

/-- The test `SUPPORTED_LANGUAGES.some(lang => lang.code === v)`. -/
def isSupported (v : JsVal) : Bool :=
  SUPPORTED_LANGUAGES.any (fun lang => strictEq (str lang.code) v)

/-- The expression `navigator.language.split('-')[0]`. -/
def primarySubtag (language : String) : String :=
  String.mk (language.data.takeWhile (fun c => c != '-'))

/-- The value of `initialLanguage` computed by the effect run on mount. -/
def initialLanguage (s : I18nWorld) (navigatorLanguage : String) : JsVal :=
  let savedLanguage := AuthContext.ofItem (s.storage.getItem "preferred-language")
  let browserLanguage := str (primarySubtag navigatorLanguage)
  if savedLanguage.truthy && isSupported savedLanguage then savedLanguage
  else if isSupported browserLanguage then browserLanguage
  else str "en"

/-- The effect run once on mount ("Initialize language from localStorage or
browser preference"), up to the suspension of the `loadMessages` call it starts and
does not await. -/
def initializeLanguage (navigatorLanguage : String) (s : I18nWorld) : I18nWorld :=
  let initial := initialLanguage s navigatorLanguage
  { loadMessagesStart initial { s with currentLanguage := initial } with
    documentLang := toStr initial }

end I18nContext

/-! ## HTTP client (services/api.js) -/

/-- Browser state the response interceptor touches. -/
structure Browser where
  /-- The browser `localStorage`. -/
  storage : Storage
  /-- The address `window.location.href`. -/
  location : String
  deriving Repr, DecidableEq

namespace Api

open Storage

/-- The rejection handler of `api.interceptors.response.use`; `status` is
`error.response?.status`, `none` when the error carries no response. The
returned promise is always rejected with the same error. -/
def responseErrorInterceptor (status : Option Int) (b : Browser) : Browser :=
  if status = some 401 then
    { storage := b.storage.removeItem "token", location := "/login" }
  else b

end Api

/-! ## Route guard (App.jsx) -/

namespace App

open JsVal AuthContext

/-- Outcome of a navigation attempt at a guarded view. -/
inductive Decision where
  | loading
  | redirectToLogin
  | redirectToLanding
  | allowed
  deriving Repr, DecidableEq

/-- Modelled from the spec: the required set of the component
`PrivateRoute` (not among the sources), read off the `requiredRole` prop as
`App.jsx` passes it: the items of an array, the single role otherwise, and
the empty set when the prop is not given. -/
def requiredRoles : JsVal → List JsVal
  | arr roles => roles
  | undefined => []
  | null => []
  | role => [role]

/-- Modelled from the spec: the component `PrivateRoute`, which `App.jsx`
imports from `./components/PrivateRoute` and which is not among the sources.
Section 4.3 of the specification: Loading while the session restore is in
progress; Denied with a redirect to login when there is no authenticated
user; Denied with a redirect to the default landing view when the user is
authenticated but the role is not in the required set; Allowed otherwise. An
empty required set admits any authenticated role. -/
def privateRoute (w : World) (requiredRole : JsVal) : Decision :=
  if w.loading then .loading
  else if !isAuthenticated w then .redirectToLogin
  else if (requiredRoles requiredRole).isEmpty then .allowed
  else if includes (requiredRoles requiredRole) (getPropOpt w.user "role") then .allowed
  else .redirectToLanding

/-- The routes nested in the guarded layout of `App`, each with the
`requiredRole` prop of the guard around its element; `none` for a route
whose element has no guard of its own. -/
def routes : List (String × Option JsVal) :=
  [ ("/dashboard", none),
    ("/students", some (arr [str "ADMIN", str "TEACHER"])),
    ("/teachers", some (str "ADMIN")),
    ("/attendance", some (arr [str "ADMIN", str "TEACHER"])),
    ("/reports", some (arr [str "ADMIN", str "TEACHER"])),
    ("/analytics", some (arr [str "ADMIN", str "TEACHER"])),
    ("/notifications", some (arr [str "ADMIN", str "TEACHER"])),
    ("/my-attendance", some (str "STUDENT")) ]

/-- The guard of a route entry, if the route exists and has one. -/
def routeGuard (path : String) : Option JsVal :=
  ((routes.find? (fun e => e.1 = path)).map (fun e => e.2)).join

/-- The decision for a path below the guarded layout: the guard around the
layout, which requires no role, then the guard of the route itself. -/
def guardedRoute (w : World) (path : String) : Decision :=
  match privateRoute w undefined with
  | .allowed =>
    match routeGuard path with
    | some requiredRole => privateRoute w requiredRole
    | none => .allowed
  | decision => decision

end App

/-! ### Further concrete inputs -/

namespace I18nContext

open JsVal

/-- A message table whose only entry is the empty text. -/
def emptyGreeting : List (String × JsVal) := [("greeting", str "")]

/-- A message table whose only entry holds the placeholder of `name` twice. -/
def doubleGreeting : List (String × JsVal) :=
  [("greet", str "\x7bname\x7d and \x7bname\x7d")]

/-- The remote Hindi table of the ordering scenario. -/
def remoteHindi : JsVal := obj [("auth.login", str "लॉगिन (hi)")]

/-- The remote Marathi table of the ordering scenario. -/
def remoteMarathi : JsVal := obj [("auth.login", str "लॉगिन (mr)")]

/-- The ordering scenario: `changeLanguage("hi")`, then
`changeLanguage("mr")`, then the Marathi response, then the Hindi response. -/
def staleResponseTrace : List Event :=
  [ .request (str "hi"), .request (str "mr"),
    .response (str "mr") (.response true (.ok remoteMarathi)),
    .response (str "hi") (.response true (.ok remoteHindi)) ]

end I18nContext

namespace App

open JsVal

/-- A restored session of a user of role STUDENT. -/
def sampleStudent : World :=
  { user := obj [("id", num 9), ("username", str "sam"), ("role", str "STUDENT")],
    token := str "xyz", loading := false, storage := [], axiosCommon := none }

end App

/-! ## register (AuthContext.jsx) -/

namespace AuthContext

open JsVal

/-- The function `register(userData)`: the `try` block, with the `catch`
turning every exception into the result with `success: false` and
`error: error.message`. The user data only shape the request; the response
is the argument `r`, whose body is read in either branch. -/
def register (_userData : JsVal) (r : FetchResult) (w : World) : World × JsVal :=
  match r with
  | .rejected e => (w, obj [("success", bool false), ("error", str e.message)])
  | .response false (.error e) => (w, obj [("success", bool false), ("error", str e.message)])
  | .response false (.ok errorData) =>
    match getProp errorData "error" with
    | .error e => (w, obj [("success", bool false), ("error", str e.message)])
    | .ok err =>
      (w, obj [("success", bool false),
               ("error", str (toStr (JsVal.or err (str "Registration failed"))))])
  | .response true (.error e) => (w, obj [("success", bool false), ("error", str e.message)])
  | .response true (.ok data) => (w, obj [("success", bool true), ("data", data)])

end AuthContext

/-! ## Sidebar navigation (components/Sidebar.jsx) -/

/-- A navigation item of the sidebar, without its icon. -/
structure NavItem where
  name : String
  href : String
  roles : List String
  deriving Repr, DecidableEq

namespace Sidebar

open JsVal

/-- The constant `commonItems` of `getNavigationItems`. -/
def commonItems : List NavItem :=
  [ ⟨"Dashboard", "/dashboard", ["ADMIN", "TEACHER", "STUDENT"]⟩ ]

/-- The constant `adminItems` of `getNavigationItems`. -/
def adminItems : List NavItem :=
  [ ⟨"Students", "/students", ["ADMIN", "TEACHER"]⟩,
    ⟨"Teachers", "/teachers", ["ADMIN"]⟩,
    ⟨"Attendance", "/attendance", ["ADMIN", "TEACHER"]⟩,
    ⟨"Reports", "/reports", ["ADMIN", "TEACHER"]⟩,
    ⟨"Analytics", "/analytics", ["ADMIN", "TEACHER"]⟩,
    ⟨"Notifications", "/notifications", ["ADMIN", "TEACHER"]⟩ ]

/-- The constant `studentItems` of `getNavigationItems`. -/
def studentItems : List NavItem :=
  [ ⟨"My Attendance", "/my-attendance", ["STUDENT"]⟩ ]

/-- The constant `allItems` of `getNavigationItems`. -/
def allItems : List NavItem := commonItems ++ adminItems ++ studentItems

/-- The function `getNavigationItems()`:
`allItems.filter(item => item.roles.includes(user?.role))`. -/
def getNavigationItems (w : World) : List NavItem :=
  allItems.filter (fun item => includes (item.roles.map str) (getPropOpt w.user "role"))

end Sidebar

/-! ## Report export (pages/Reports.jsx) -/

/-- The state `filters` of `Reports`. -/
structure ReportFilters where
  startDate : String
  endDate : String
  /-- The member `class`. -/
  classFilter : String
  /-- The member `section`. -/
  sectionFilter : String
  reportType : String
  deriving Repr, DecidableEq

/-- A file handed to `downloadFile(blob, filename)`. -/
structure Download where
  filename : String
  mimeType : String
  content : String
  deriving Repr, DecidableEq

/-- React state of `Reports` together with what `handleExport` does to the
browser. -/
structure ReportsWorld where
  /-- State `filters`. -/
  filters : ReportFilters
  /-- State `isGenerating`: the members of the object. -/
  isGenerating : List (String × JsVal)
  /-- Files downloaded so far, oldest first. -/
  downloads : List Download
  /-- Messages shown with `alert`, oldest first. -/
  alerts : List String
  deriving Repr

namespace Reports

open JsVal

/-- The initial value of `isGenerating`. -/
def initialGenerating : List (String × JsVal) :=
  [("csv", bool false), ("excel", bool false), ("pdf", bool false)]

/-- The template literal bound to `csvContent` in the `csv` case. -/
def csvText : String :=
  "Student Name,GR No,Roll No,Standard,Section,Total Days,Present Days,Absent Days,Attendance %\n" ++
  "John Doe,GR001,1,10,A,30,28,2,93.33%\n" ++
  "Jane Smith,GR002,2,10,A,30,29,1,96.67%\n" ++
  "Alice Johnson,GR003,3,10,A,30,27,3,90.00%"

/-- Read of a `const` binding of the `switch` block: the binding exists in
the whole block but holds a value only after its declaration has run;
before that the read raises a ReferenceError. -/
def readConst (name : String) (binding : Option String) : Except JsError String :=
  match binding with
  | some value => .ok value
  | none => .error ⟨"Cannot access \x27" ++ name ++ "\x27 before initialization"⟩

/-- The `switch (format)` of `handleExport`: the files it downloads, or the
exception it raises. Control enters at the matching `case`, so the
declaration of `csvContent` in the `csv` case has run only in that case. -/
def exportSwitch (filters : ReportFilters) (format : String) : Except JsError (List Download) :=
  let stem := "attendance_report_" ++ filters.startDate ++ "_" ++ filters.endDate
  if format = "csv" then
    let csvContent := csvText
    .ok [{ filename := stem ++ ".csv", mimeType := "text/csv", content := csvContent }]
  else if format = "excel" then
    match readConst "csvContent" none with
    | .error e => .error e
    | .ok excelContent =>
      .ok [{ filename := stem ++ ".xlsx",
             mimeType := "application/vnd.openxmlformats-officedocument.spreadsheetml.sheet",
             content := excelContent }]
  else if format = "pdf" then
    match readConst "csvContent" none with
    | .error e => .error e
    | .ok csvContent =>
      .ok [{ filename := stem ++ ".pdf", mimeType := "application/pdf",
             content := "Attendance Report\n\nPeriod: " ++ filters.startDate ++ " to " ++
               filters.endDate ++ "\n\n" ++ csvContent }]
  else .ok []

/-- The function `handleExport(format)`: the flag of the format is set, the
`switch` runs, one of the two alerts is shown, and the `finally` clears the
flag. -/
def handleExport (format : String) (s : ReportsWorld) : ReportsWorld :=
  let generating := JSON.setProp format (bool true) s.isGenerating
  match exportSwitch s.filters format with
  | .ok files =>
    { s with
      downloads := s.downloads ++ files
      alerts := s.alerts ++ [JsString.toUpperCase format ++ " report generated successfully!"]
      isGenerating := JSON.setProp format (bool false) generating }
  | .error _ =>
    { s with
      alerts := s.alerts ++
        ["Failed to generate " ++ JsString.toUpperCase format ++ " report. Please try again."]
      isGenerating := JSON.setProp format (bool false) generating }

end Reports

/-! ## Attendance marking (pages/Attendance.jsx) -/

namespace Attendance

open JsVal

/-- The updater of `handleAttendanceChange(studentId, status)`:
`prev => ({ ...prev, [studentId]: { ...prev[studentId], status: status } })`. -/
def handleAttendanceChange (studentId status : JsVal) (prev : List (String × JsVal)) :
    List (String × JsVal) :=
  JSON.setProp (toStr studentId)
    (obj (JSON.setProp "status" status (ownEntries (lookup (toStr studentId) prev)))) prev

/-- The updater of `handleRemarksChange(studentId, remarks)`:
`prev => ({ ...prev, [studentId]: { ...prev[studentId], remarks: remarks } })`. -/
def handleRemarksChange (studentId remarks : JsVal) (prev : List (String × JsVal)) :
    List (String × JsVal) :=
  JSON.setProp (toStr studentId)
    (obj (JSON.setProp "remarks" remarks (ownEntries (lookup (toStr studentId) prev)))) prev

/-- The record of a student in the attendance map, `undefined` if absent. -/
def recordOf (studentId : JsVal) (data : List (String × JsVal)) : JsVal :=
  lookup (toStr studentId) data

end Attendance

/-! ### Concrete inputs for the pages -/

namespace Reports

open JsVal

/-- A report page with the filters of March 2024 and nothing exported yet. -/
def sampleReports : ReportsWorld :=
  { filters := ⟨"2024-03-01", "2024-03-31", "", "", "COMPREHENSIVE"⟩,
    isGenerating := initialGenerating, downloads := [], alerts := [] }

end Reports

namespace Attendance

open JsVal

/-- An attendance map of two students as the page builds it. -/
def sampleAttendance : List (String × JsVal) :=
  [ ("1", obj [("status", str "PRESENT"), ("remarks", str "")]),
    ("2", obj [("status", str "PRESENT"), ("remarks", str "late bus")]) ]

end Attendance

namespace AuthContext

open JsVal

/-- A login payload with the success flag and a user but no `token`. -/
def payloadWithoutToken : JsVal := obj [("success", bool true), ("user", sampleUser)]

end AuthContext

/-! ## Session invariant -/

namespace AuthContext

open JsVal Storage

/-- C1. For a session whose `user` is absent or a record and whose `token`
is absent or a string, `isAuthenticated` holds exactly when the user is a
record and the token is a non-empty string; with either one absent it is
false. -/
theorem isAuthenticated_iff_both_present (w : World)
    (hu : w.user.isNullish = true ∨ ∃ ps, w.user = obj ps)
    (ht : w.token.isNullish = true ∨ ∃ t, w.token = str t) :
    (isAuthenticated w = true ↔
      (w.user.isNullish = false ∧ w.token.isNullish = false ∧ w.token ≠ str "")) ∧
    (w.user.isNullish = true → isAuthenticated w = false) ∧
    (w.token.isNullish = true → isAuthenticated w = false) := by
  obtain ⟨user, token, loading, storage, ax⟩ := w
  simp only [isAuthenticated]
  rcases hu with hu | ⟨ps, hu⟩ <;> rcases ht with ht | ⟨t, ht⟩
  · cases user <;> cases token <;> simp_all [isNullish, truthy]
  · cases user <;> simp_all [isNullish, truthy]
  · cases token <;> simp_all [isNullish, truthy]
  · simp_all [isNullish, truthy]

/-- Witness for C1: a logged-in ADMIN session and the two half-present ones. -/
theorem isAuthenticated_iff_both_present_witness :
    (isAuthenticated
        { user := obj [("id", num 1), ("username", str "admin"), ("role", str "ADMIN")],
          token := str "tok", loading := false, storage := [], axiosCommon := none } = true ↔
      (isNullish (obj [("id", num 1), ("username", str "admin"), ("role", str "ADMIN")]) = false ∧
        isNullish (str "tok") = false ∧ str "tok" ≠ str "")) ∧
    isAuthenticated
        { user := obj [("id", num 1), ("username", str "admin"), ("role", str "ADMIN")],
          token := null, loading := false, storage := [], axiosCommon := none } = false := by
  have h1 := isAuthenticated_iff_both_present
    { user := obj [("id", num 1), ("username", str "admin"), ("role", str "ADMIN")],
      token := str "tok", loading := false, storage := [], axiosCommon := none }
    (Or.inr ⟨_, rfl⟩) (Or.inr ⟨_, rfl⟩)
  have h2 := isAuthenticated_iff_both_present
    { user := obj [("id", num 1), ("username", str "admin"), ("role", str "ADMIN")],
      token := null, loading := false, storage := [], axiosCommon := none }
    (Or.inr ⟨_, rfl⟩) (Or.inl rfl)
  exact ⟨h1.1, h2.2.2 rfl⟩

end AuthContext

/-! ## Facts about the storage model -/

namespace Storage

theorem getItem_removeItem_self (s : Storage) (k : String) :
    getItem (removeItem s k) k = none := by
  induction s with
  | nil => rfl
  | cons e rest ih =>
    obtain ⟨k1, v1⟩ := e
    by_cases h : k1 = k
    · simpa [removeItem, List.filter_cons, h] using ih
    · simpa [removeItem, List.filter_cons, h, getItem] using ih

theorem getItem_removeItem_ne (s : Storage) (k k2 : String) (hne : k2 ≠ k) :
    getItem (removeItem s k) k2 = getItem s k2 := by
  induction s with
  | nil => rfl
  | cons e rest ih =>
    obtain ⟨k1, v1⟩ := e
    by_cases h : k1 = k
    · subst h
      have h2 : ¬ k1 = k2 := fun h3 => hne h3.symm
      simpa [removeItem, List.filter_cons, getItem, h2] using ih
    · by_cases h3 : k1 = k2
      · subst h3
        simp [removeItem, List.filter_cons, h, getItem]
      · simpa [removeItem, List.filter_cons, h, getItem, h3] using ih

theorem getItem_setItem_self (s : Storage) (k v : String) :
    getItem (setItem s k v) k = some v := by
  simp [setItem, getItem]

theorem getItem_setItem_ne (s : Storage) (k v k2 : String) (hne : k2 ≠ k) :
    getItem (setItem s k v) k2 = getItem s k2 := by
  have h : k ≠ k2 := fun h => hne h.symm
  simp [setItem, getItem, h, getItem_removeItem_ne s k k2 hne]

theorem removeItem_comm (s : Storage) (k k2 : String) :
    removeItem (removeItem s k) k2 = removeItem (removeItem s k2) k := by
  simp [removeItem, List.filter_filter, Bool.and_comm]

theorem removeItem_idem (s : Storage) (k : String) :
    removeItem (removeItem s k) k = removeItem s k := by
  simp [removeItem, List.filter_filter]

theorem removeItem_of_absent (s : Storage) (k : String) (h : getItem s k = none) :
    removeItem s k = s := by
  induction s with
  | nil => rfl
  | cons e rest ih =>
    obtain ⟨k1, v1⟩ := e
    by_cases h1 : k1 = k
    · simp [getItem, h1] at h
    · simp only [getItem, h1, if_false] at h
      have h2 := ih h
      simp only [removeItem] at h2 ⊢
      simp [List.filter_cons, h1, h2]

end Storage

/-! ## login -/

namespace AuthContext

open JsVal Storage

/-- A failure detected before anything is written (rejected request,
unreadable body, non-2xx status, payload without a truthy success flag)
leaves the whole state as it was and returns `success: false`. -/
theorem login_early_failure_unchanged (c : JsVal) (r : FetchResult) (w : World)
    (h : (∃ e, r = .rejected e) ∨ (∃ ok e, r = .response ok (.error e)) ∨
      (∃ data, r = .response false (.ok data)) ∨
      (∃ data s, r = .response true (.ok data) ∧ getProp data "success" = .ok s ∧
        s.truthy = false)) :
    (login c r w).1 = w ∧ getPropOpt (login c r w).2 "success" = bool false := by
  rcases h with ⟨e, rfl⟩ | ⟨ok, e, rfl⟩ | ⟨data, rfl⟩ | ⟨data, s, rfl, hs, hf⟩
  · exact ⟨rfl, rfl⟩
  · exact ⟨rfl, rfl⟩
  · exact ⟨rfl, rfl⟩
  · simp [login, loginTry, hs, hf, getPropOpt, lookup]

/-- A `login` call that returns `success: false` either left the whole
state as it was, or it had received a 2xx payload with a token and wrote
that token to storage before raising; nothing else is changed. -/
theorem login_failure_state (c : JsVal) (r : FetchResult) (w : World)
    (h : getPropOpt (login c r w).2 "success" = bool false) :
    (login c r w).1 = w ∨
    ∃ data tok, r = .response true (.ok data) ∧ getProp data "token" = .ok tok ∧
      (login c r w).1 = { w with storage := w.storage.setItem "token" (toStr tok) } := by
  rcases r with e | ⟨ok, json⟩
  · exact Or.inl rfl
  · rcases json with e | data
    · exact Or.inl rfl
    · cases ok
      · exact Or.inl rfl
      · rcases hs : getProp data "success" with e | flag
        · exact Or.inl (by simp [login, loginTry, hs])
        · cases hf : flag.truthy
          · exact Or.inl (by simp [login, loginTry, hs, hf])
          · rcases ht : getProp data "token" with e | tok
            · exact Or.inl (by simp [login, loginTry, hs, hf, ht])
            · rcases hu : userRecord data with e | record
              · exact Or.inr ⟨data, tok, rfl, ht, by simp [login, loginTry, hs, hf, ht, hu]⟩
              · simp [login, loginTry, hs, hf, ht, hu, getPropOpt, lookup] at h

/-- C2, evaluated at the failing input. The response is 2xx with body
`{ success: true, token: "abc" }`. The token is written to `localStorage`,
then reading `data.user.id` raises; `login` returns `success: false`, the
in-memory session is still empty, and storage now holds a `token` entry that
was not there before the call. -/
theorem login_failure_leaves_token_in_storage :
    (login sampleCredentials (.response true (.ok payloadWithoutUser)) (mount [] none)).2 =
      obj [("success", bool false),
           ("error", str "Cannot read properties of undefined (reading \x27id\x27)")] ∧
    (login sampleCredentials (.response true (.ok payloadWithoutUser)) (mount [] none)).1.token =
      null ∧
    (login sampleCredentials (.response true (.ok payloadWithoutUser)) (mount [] none)).1.user =
      null ∧
    getItem (mount [] none).storage "token" = none ∧
    getItem
      (login sampleCredentials (.response true (.ok payloadWithoutUser)) (mount [] none)).1.storage
      "token" = some "abc" :=
  ⟨rfl, rfl, rfl, rfl, rfl⟩

/-- C3. A 2xx response whose payload has a truthy `success`, a string
`token` and a `user` that is not null or undefined makes `login` return
`{ success: true, data }`; afterwards the in-memory token is that token, the
in-memory user is the record `{ id, username, role }` read from the payload,
`localStorage` holds the token under `token` and the JSON serialisation of
the in-memory user under `user`. -/
theorem login_success_sets_session (c data flag u : JsVal) (t : String) (w : World)
    (hflag : getProp data "success" = .ok flag) (htruthy : flag.truthy = true)
    (htoken : getProp data "token" = .ok (str t))
    (huser : getProp data "user" = .ok u) (hu : u.isNullish = false) :
    (login c (.response true (.ok data)) w).2 = obj [("success", bool true), ("data", data)] ∧
    (login c (.response true (.ok data)) w).1.token = str t ∧
    (login c (.response true (.ok data)) w).1.user =
      obj [("id", getPropOpt u "id"), ("username", getPropOpt u "username"),
           ("role", getPropOpt u "role")] ∧
    getItem (login c (.response true (.ok data)) w).1.storage "token" = some t ∧
    getItem (login c (.response true (.ok data)) w).1.storage "user" =
      some (JSON.stringify (login c (.response true (.ok data)) w).1.user) := by
  have hrec : userRecord data = .ok (obj [("id", getPropOpt u "id"),
      ("username", getPropOpt u "username"), ("role", getPropOpt u "role")]) := by
    cases u <;> simp_all [userRecord, getProp, getPropOpt, isNullish]
  simp [login, loginTry, hflag, htruthy, htoken, hrec, toStr, getItem_setItem_self,
    getItem_setItem_ne]

/-- Witness for C3: the sample payload on a fresh provider. -/
theorem login_success_sets_session_witness :
    (login sampleCredentials (.response true (.ok samplePayload)) (mount [] none)).2 =
      obj [("success", bool true), ("data", samplePayload)] ∧
    (login sampleCredentials (.response true (.ok samplePayload)) (mount [] none)).1.token =
      str "abc" ∧
    getItem
      (login sampleCredentials (.response true (.ok samplePayload)) (mount [] none)).1.storage
      "user" = some "\x7b\"id\":7,\"username\":\"amy\",\"role\":\"ADMIN\"\x7d" := by
  have h := login_success_sets_session sampleCredentials samplePayload (bool true) sampleUser
    "abc" (mount [] none) rfl rfl rfl rfl rfl
  exact ⟨h.1, h.2.1, rfl⟩

end AuthContext

/-! ## Startup restore and logout -/

namespace AuthContext

open JsVal Storage

/-- The empty text is not JSON. -/
theorem parse_empty : JSON.parse "" = .error ⟨"Unexpected token in JSON"⟩ := rfl

/-- C4. On a freshly mounted provider whose storage holds a non-empty
`token` entry and a `user` entry that is the JSON text of a record, the
startup restore yields a session with that token and the parsed record, and
`isAuthenticated` is true. When the `token` entry or the `user` entry is
absent, the restore leaves `user` and `token` null. -/
theorem restoreSession_from_storage (storage : Storage) (ax : Option (Option String)) :
    (∀ (t s : String) (ps : List (String × JsVal)),
      getItem storage "token" = some t → t ≠ "" →
      getItem storage "user" = some s → JSON.parse s = .ok (obj ps) →
      ∃ w, restoreSession (mount storage ax) = .ok w ∧ w.token = str t ∧ w.user = obj ps ∧
        isAuthenticated w = true) ∧
    ((getItem storage "token" = none ∨ getItem storage "user" = none) →
      ∃ w, restoreSession (mount storage ax) = .ok w ∧ w.token = null ∧ w.user = null) := by
  constructor
  · intro t s ps ht hne hs hparse
    have hs2 : s ≠ "" := by
      intro h
      rw [h, parse_empty] at hparse
      cases hparse
    refine ⟨{ mount storage ax with
              token := str t, user := obj ps,
              axiosCommon := ax.map (fun _ => some ("Bearer " ++ t)), loading := false }, ?_,
      rfl, rfl, ?_⟩
    · simp [restoreSession, mount, ht, hs, ofItem, truthy, hne, hs2, toStr, hparse]
    · simp [isAuthenticated, truthy, hne]
  · intro h
    refine ⟨{ mount storage ax with loading := false }, ?_, rfl, rfl⟩
    rcases h with h | h
    · simp [restoreSession, mount, h, ofItem, truthy]
    · simp [restoreSession, mount, h, ofItem, truthy]

/-- Witness for C4: storage written by a login of the sample user, and
storage without a `user` entry. -/
theorem restoreSession_from_storage_witness :
    (∃ w, restoreSession (mount [("user", JSON.stringify sampleUser), ("token", "abc")] none) =
        .ok w ∧ w.token = str "abc" ∧ w.user = sampleUser ∧ isAuthenticated w = true) ∧
    (∃ w, restoreSession (mount [("token", "abc")] none) = .ok w ∧ w.token = null ∧
        w.user = null) :=
  ⟨(restoreSession_from_storage [("user", JSON.stringify sampleUser), ("token", "abc")] none).1
      "abc" (JSON.stringify sampleUser) _ rfl (by decide) rfl rfl,
   (restoreSession_from_storage [("token", "abc")] none).2 (Or.inr rfl)⟩

/-- C5, evaluated at the failing input. Storage holds `token = "abc"` and
a `user` entry consisting of one opening brace, which is not JSON: the
startup restore raises the SyntaxError of `JSON.parse` and never reaches
`setLoading(false)`; it does not end with an absent session and
`loading = false`. -/
theorem restoreSession_corrupt_user_throws :
    restoreSession (mount corruptStorage none) =
      .error ⟨"Unexpected token in JSON"⟩ ∧
    (mount corruptStorage none).loading = true ∧
    ¬ ∃ w, restoreSession (mount corruptStorage none) = .ok w := by
  refine ⟨rfl, rfl, ?_⟩
  rintro ⟨w, h⟩
  have h2 : restoreSession (mount corruptStorage none) =
      .error ⟨"Unexpected token in JSON"⟩ := rfl
  rw [h2] at h
  cases h

/-- The restore raises exactly when both entries are non-empty and the
`user` entry is not JSON. -/
theorem restoreSession_error_iff (w : World) (e : JsError) :
    restoreSession w = .error e ↔
      ∃ t s, getItem w.storage "token" = some t ∧ t ≠ "" ∧
        getItem w.storage "user" = some s ∧ s ≠ "" ∧ JSON.parse s = .error e := by
  rcases ht : getItem w.storage "token" with _ | t
  · simp [restoreSession, ht, ofItem, truthy]
  · rcases hs : getItem w.storage "user" with _ | s
    · simp [restoreSession, ht, hs, ofItem, truthy]
    · by_cases h1 : t = ""
      · simp [restoreSession, ht, hs, ofItem, truthy, h1]
      · by_cases h2 : s = ""
        · simp [restoreSession, ht, hs, ofItem, truthy, h2]
        · rcases hp : JSON.parse s with e2 | v
          · simp [restoreSession, ht, hs, ofItem, truthy, h1, h2, toStr, hp]
          · simp [restoreSession, ht, hs, ofItem, truthy, h1, h2, toStr, hp]

/-- Whenever the restore does not have to parse a corrupt `user` entry it
completes with `loading = false`. -/
theorem restoreSession_loading_false (w w2 : World) (h : restoreSession w = .ok w2) :
    w2.loading = false := by
  simp only [restoreSession] at h
  split at h
  · split at h
    · cases h
    · cases h; rfl
  · cases h; rfl

/-- After `logout()` storage has no `token` entry. -/
theorem getItem_logout_token (w : World) : getItem (logout w).storage "token" = none := by
  show getItem ((w.storage.removeItem "token").removeItem "user") "token" = none
  rw [removeItem_comm]
  exact getItem_removeItem_self _ _

/-- After `logout()` storage has no `user` entry. -/
theorem getItem_logout_user (w : World) : getItem (logout w).storage "user" = none :=
  getItem_removeItem_self _ _

/-- C6. For every state, `logout()` followed by the startup restore, run
either on the state `logout` left or on a provider mounted afresh over the
storage `logout` left (a reload), completes with `isAuthenticated = false`. -/
theorem logout_then_restore_not_authenticated (w : World) (ax : Option (Option String)) :
    (∃ w2, restoreSession (logout w) = .ok w2 ∧ isAuthenticated w2 = false) ∧
    (∃ w2, restoreSession (mount (logout w).storage ax) = .ok w2 ∧
      isAuthenticated w2 = false) := by
  have h1 := getItem_logout_token w
  constructor
  · refine ⟨{ logout w with loading := false }, ?_, rfl⟩
    simp [restoreSession, h1, ofItem, truthy]
  · refine ⟨{ mount (logout w).storage ax with loading := false }, ?_, rfl⟩
    simp [restoreSession, mount, h1, ofItem, truthy]

/-- C7. `logout()` is a total function of the state; afterwards `token` and
`user` are null and storage has neither a `token` nor a `user` entry;
running it a second time changes nothing, `logout (logout w) = logout w`;
and on a state that is already logged out (no token, no user, no stored
entries, no Authorization header) it changes nothing at all. -/
theorem logout_clears_and_idempotent (w : World) :
    (logout w).token = null ∧ (logout w).user = null ∧
    getItem (logout w).storage "token" = none ∧
    getItem (logout w).storage "user" = none ∧
    logout (logout w) = logout w ∧
    (w.token = null → w.user = null → getItem w.storage "token" = none →
      getItem w.storage "user" = none → w.axiosCommon.join = none → logout w = w) := by
  refine ⟨rfl, rfl, getItem_logout_token w, getItem_logout_user w, ?_, ?_⟩
  · obtain ⟨user, token, loading, storage, ax⟩ := w
    have hs : (((storage.removeItem "token").removeItem "user").removeItem "token").removeItem
        "user" = (storage.removeItem "token").removeItem "user" := by
      rw [removeItem_comm (storage.removeItem "token") "user" "token", removeItem_idem,
        removeItem_idem]
    cases ax <;> simp [logout, hs]
  · obtain ⟨user, token, loading, storage, ax⟩ := w
    intro ht hu hst hsu hax
    simp only at ht hu hst hsu hax
    have h1 : storage.removeItem "token" = storage := removeItem_of_absent _ _ hst
    have h2 : storage.removeItem "user" = storage := removeItem_of_absent _ _ hsu
    subst ht hu
    rcases ax with _ | _ | h
    · simp [logout, h1, h2]
    · simp [logout, h1, h2]
    · simp at hax

/-- Witness for C7: a provider that never logged in. -/
theorem logout_clears_and_idempotent_witness :
    logout (logout sampleLoggedIn) = logout sampleLoggedIn ∧
    logout (mount [("preferred-language", "hi")] (some none)) =
      mount [("preferred-language", "hi")] (some none) :=
  ⟨(logout_clears_and_idempotent sampleLoggedIn).2.2.2.2.1,
   (logout_clears_and_idempotent (mount [("preferred-language", "hi")] (some none))).2.2.2.2.2
      rfl rfl rfl rfl rfl⟩

/-! ## validateToken, hasRole, hasPermission -/

/-- On a list of strings `includes` finds exactly its members. -/
theorem includes_map_str (xs : List String) (v : JsVal) :
    includes (xs.map str) v = true ↔ ∃ p, p ∈ xs ∧ v = str p := by
  induction xs with
  | nil => simp [includes]
  | cons x rest ih =>
    have hx : strictEq (str x) v = true ↔ v = str x := by
      cases v with
      | str y =>
        simp only [strictEq, beq_iff_eq, str.injEq]
        exact eq_comm
      | _ => simp [strictEq]
    simp only [includes, List.map_cons, List.any_cons, Bool.or_eq_true] at ih ⊢
    rw [ih, hx]
    constructor
    · rintro (h | ⟨p, hp, h⟩)
      · exact ⟨x, List.mem_cons_self _ _, h⟩
      · exact ⟨p, List.mem_cons_of_mem _ hp, h⟩
    · rintro ⟨p, hp, h⟩
      rcases List.mem_cons.mp hp with rfl | hp
      · exact Or.inl h
      · exact Or.inr ⟨p, hp, h⟩

/-- Strict equality with a string. -/
theorem strictEq_str (v : JsVal) (r : String) : strictEq v (str r) = true ↔ v = str r := by
  cases v <;> simp [strictEq]

/-- C8. `hasPermission(p)` returns true exactly when a user is present and
`p` is listed in `rolePermissions` under the key `user.role`; it returns false
when there is no user, and when a user is present whose role key is
not an inherited member name and does not list `p`. For a user of role ADMIN
`hasPermission("MANAGE_STUDENTS")` is true, for role STUDENT it is false. -/
theorem hasPermission_iff_listed (w : World) (p : String) :
    (hasPermission w (str p) = .ok true ↔
      w.user.truthy = true ∧
        ∃ perms, permissionsOf (toStr (getPropOpt w.user "role")) = some perms ∧ p ∈ perms) ∧
    (w.user.truthy = false → hasPermission w (str p) = .ok false) ∧
    (w.user.truthy = true → toStr (getPropOpt w.user "role") ∉ objectPrototypeMembers →
      (¬ ∃ perms, permissionsOf (toStr (getPropOpt w.user "role")) = some perms ∧ p ∈ perms) →
      hasPermission w (str p) = .ok false) ∧
    (w.user.truthy = true → getPropOpt w.user "role" = str "ADMIN" →
      hasPermission w (str "MANAGE_STUDENTS") = .ok true) ∧
    (w.user.truthy = true → getPropOpt w.user "role" = str "STUDENT" →
      hasPermission w (str "MANAGE_STUDENTS") = .ok false) := by
  have hinc : ∀ perms : List String, includes (perms.map str) (str p) = true ↔ p ∈ perms := by
    intro perms
    rw [includes_map_str]
    constructor
    · rintro ⟨q, hq, h⟩
      cases h
      exact hq
    · intro h
      exact ⟨p, h, rfl⟩
  refine ⟨?_, ?_, ?_, ?_, ?_⟩
  · by_cases hu : w.user.truthy = true
    · cases hk : permissionsOf (toStr (getPropOpt w.user "role")) with
      | none =>
        by_cases hm : toStr (getPropOpt w.user "role") ∈ objectPrototypeMembers
        · simp [hasPermission, hu, hk, hm]
        · simp [hasPermission, hu, hk, hm]
      | some perms => simp [hasPermission, hu, hk, hinc]
    · simp [hasPermission, hu]
  · intro hu
    simp [hasPermission, hu]
  · intro hu hm hl
    cases hk : permissionsOf (toStr (getPropOpt w.user "role")) with
    | none => simp [hasPermission, hu, hk, hm]
    | some perms =>
      have hp : p ∉ perms := fun h => hl ⟨perms, hk, h⟩
      simp only [hasPermission, hu, hk, Bool.not_true, Bool.or_false]
      exact congrArg Except.ok (Bool.eq_false_iff.mpr (fun h => hp ((hinc perms).mp h)))
  · intro hu hr
    simp [hasPermission, hu, hr, toStr, permissionsOf, rolePermissions, includes, strictEq]
  · intro hu hr
    simp [hasPermission, hu, hr, toStr, permissionsOf, rolePermissions, includes, strictEq]

/-- Witness for C8: the sample ADMIN session and a STUDENT session. -/
theorem hasPermission_iff_listed_witness :
    hasPermission sampleLoggedIn (str "MANAGE_STUDENTS") = .ok true ∧
    hasPermission { sampleLoggedIn with user := obj [("id", num 9), ("role", str "STUDENT")] }
      (str "MANAGE_STUDENTS") = .ok false ∧
    hasPermission (mount [] none) (str "MANAGE_STUDENTS") = .ok false ∧
    hasPermission sampleLoggedIn (str "VIEW_OWN_ATTENDANCE") = .ok false :=
  ⟨(hasPermission_iff_listed sampleLoggedIn "MANAGE_STUDENTS").2.2.2.1 rfl rfl,
   (hasPermission_iff_listed
      { sampleLoggedIn with user := obj [("id", num 9), ("role", str "STUDENT")] }
      "MANAGE_STUDENTS").2.2.2.2 rfl rfl,
   (hasPermission_iff_listed (mount [] none) "MANAGE_STUDENTS").2.1 rfl,
   (hasPermission_iff_listed sampleLoggedIn "VIEW_OWN_ATTENDANCE").2.2.1 rfl (by decide)
      (by
        rintro ⟨perms, h, hp⟩
        have h2 : permissionsOf (toStr (getPropOpt sampleLoggedIn.user "role")) =
            some ["MANAGE_USERS", "MANAGE_STUDENTS", "MANAGE_TEACHERS", "MANAGE_ATTENDANCE",
              "VIEW_REPORTS", "EXPORT_REPORTS"] := rfl
        rw [h2] at h
        cases h
        revert hp
        decide)⟩

/-- C9. For a required value that is a single role `r`, `hasRole` holds
exactly when the role of the current user is `r`; for a list of roles it
holds exactly when the role of the current user is one of them; with no
current user it is false for every role and every list of roles. -/
theorem hasRole_iff_member (w : World) (r : String) (rs : List String) :
    (hasRole w (str r) = true ↔ getPropOpt w.user "role" = str r) ∧
    (hasRole w (arr (rs.map str)) = true ↔ ∃ q, q ∈ rs ∧ getPropOpt w.user "role" = str q) ∧
    (w.user.isNullish = true →
      hasRole w (str r) = false ∧ hasRole w (arr (rs.map str)) = false) := by
  refine ⟨?_, ?_, ?_⟩
  · simp [hasRole, strictEq_str]
  · simp [hasRole, includes_map_str]
  · intro hu
    have hrole : getPropOpt w.user "role" = undefined := by
      cases hw : w.user <;> simp_all [getPropOpt, isNullish]
    constructor
    · cases h : hasRole w (str r) with
      | false => rfl
      | true =>
        simp only [hasRole, strictEq_str] at h
        rw [hrole] at h
        cases h
    · cases h : hasRole w (arr (rs.map str)) with
      | false => rfl
      | true =>
        simp only [hasRole, includes_map_str] at h
        obtain ⟨q, _, hq⟩ := h
        rw [hrole] at hq
        cases hq

/-- Witness for C9: with no user, no role and no list of roles matches. -/
theorem hasRole_iff_member_witness :
    hasRole (mount [] none) (str "ADMIN") = false ∧
    hasRole (mount [] none) (arr (["ADMIN", "TEACHER"].map str)) = false :=
  (hasRole_iff_member (mount [] none) "ADMIN" ["ADMIN", "TEACHER"]).2.2 rfl

/-- C10, counterexample. A token is held and the validation request is
answered 2xx with a body that cannot be read as JSON: `validateToken` does
not return a flag of the server, it performs `logout()` and returns false;
the token and both storage entries of the session are gone. -/
theorem validateToken_unreadable_body_counterexample :
    sampleLoggedIn.token = str "abc" ∧
    validateToken (.response true (.error ⟨"Unexpected end of JSON input"⟩)) sampleLoggedIn =
      (logout sampleLoggedIn, bool false) ∧
    (validateToken (.response true (.error ⟨"Unexpected end of JSON input"⟩))
      sampleLoggedIn).1.token = null ∧
    getItem (validateToken (.response true (.error ⟨"Unexpected end of JSON input"⟩))
      sampleLoggedIn).1.storage "token" = none ∧
    getItem (validateToken (.response true (.error ⟨"Unexpected end of JSON input"⟩))
      sampleLoggedIn).1.storage "user" = none :=
  ⟨rfl, rfl, rfl, rfl, rfl⟩

/-- A payload that is not null or undefined can be read at any member. -/
theorem getProp_of_not_nullish (data : JsVal) (key : String) (h : data.isNullish = false) :
    getProp data key = .ok (getPropOpt data key) := by
  cases data <;> simp_all [getProp, getPropOpt, isNullish]

/-- A payload that is null or undefined cannot be read at any member. -/
theorem getProp_of_nullish (data : JsVal) (key : String) (h : data.isNullish = true) :
    ∃ e, getProp data key = .error e := by
  cases data <;> simp_all [getProp, isNullish]

/-- C10, amended. `validateToken()` with no token returns false and leaves
the state as it is. With a token and a non-2xx response it performs
`logout()`, so that token, user and both storage entries are gone, and
returns false. With a token and a 2xx response whose body is readable and
not null it returns the `valid` member of the body and leaves the state as
it is. With a token and a 2xx response whose body cannot be read, or is
null, it performs `logout()` and returns false. -/
theorem validateToken_cases (r : FetchResult) (w : World) :
    (w.token.truthy = false → validateToken r w = (w, bool false)) ∧
    (w.token.truthy = true → ∀ json,
      validateToken (.response false json) w = (logout w, bool false) ∧
      (validateToken (.response false json) w).1.token = null ∧
      (validateToken (.response false json) w).1.user = null ∧
      getItem (validateToken (.response false json) w).1.storage "token" = none ∧
      getItem (validateToken (.response false json) w).1.storage "user" = none) ∧
    (w.token.truthy = true → ∀ data, data.isNullish = false →
      validateToken (.response true (.ok data)) w = (w, getPropOpt data "valid")) ∧
    (w.token.truthy = true → ∀ e,
      validateToken (.response true (.error e)) w = (logout w, bool false)) ∧
    (w.token.truthy = true → ∀ data, data.isNullish = true →
      validateToken (.response true (.ok data)) w = (logout w, bool false)) := by
  refine ⟨?_, ?_, ?_, ?_, ?_⟩
  · intro h
    simp [validateToken, h]
  · intro h json
    have h1 : validateToken (.response false json) w = (logout w, bool false) := by
      simp [validateToken, h]
    rw [h1]
    exact ⟨rfl, rfl, rfl, getItem_logout_token w, getItem_logout_user w⟩
  · intro h data hdata
    simp [validateToken, h, getProp_of_not_nullish data "valid" hdata]
  · intro h e
    simp [validateToken, h]
  · intro h data hdata
    obtain ⟨e, he⟩ := getProp_of_nullish data "valid" hdata
    simp [validateToken, h, he]

/-- Witness for C10: no token on a fresh provider; on the logged-in sample
state an expired token, a valid token, an unreadable body and a null body. -/
theorem validateToken_cases_witness :
    validateToken (.rejected ⟨"Failed to fetch"⟩) (mount [] none) = (mount [] none, bool false) ∧
    validateToken (.response false (.ok (obj [("error", str "expired")]))) sampleLoggedIn =
      (logout sampleLoggedIn, bool false) ∧
    validateToken (.response true (.ok (obj [("valid", bool true)]))) sampleLoggedIn =
      (sampleLoggedIn, bool true) ∧
    validateToken (.response true (.error ⟨"Unexpected end of JSON input"⟩)) sampleLoggedIn =
      (logout sampleLoggedIn, bool false) ∧
    validateToken (.response true (.ok null)) sampleLoggedIn =
      (logout sampleLoggedIn, bool false) :=
  ⟨(validateToken_cases (.rejected ⟨"Failed to fetch"⟩) (mount [] none)).1 rfl,
   ((validateToken_cases (.rejected ⟨"Failed to fetch"⟩) sampleLoggedIn).2.1 rfl
      (.ok (obj [("error", str "expired")]))).1,
   (validateToken_cases (.rejected ⟨"Failed to fetch"⟩) sampleLoggedIn).2.2.1 rfl
      (obj [("valid", bool true)]) rfl,
   (validateToken_cases (.rejected ⟨"Failed to fetch"⟩) sampleLoggedIn).2.2.2.1 rfl
      ⟨"Unexpected end of JSON input"⟩,
   (validateToken_cases (.rejected ⟨"Failed to fetch"⟩) sampleLoggedIn).2.2.2.2 rfl null rfl⟩

end AuthContext

/-! ## Facts about object literals -/

namespace JsVal

theorem own_setProp_self (k : String) (v : JsVal) (props : List (String × JsVal)) :
    own k (JSON.setProp k v props) = some v := by
  induction props with
  | nil => simp [JSON.setProp, own]
  | cons e rest ih =>
    obtain ⟨k1, v1⟩ := e
    by_cases h : k1 = k
    · simp [JSON.setProp, own, h]
    · simp only [own, JSON.setProp, h, if_false, List.find?_cons, decide_False] at ih ⊢
      exact ih

theorem own_setProp_ne (k k2 : String) (v : JsVal) (props : List (String × JsVal))
    (hne : k2 ≠ k) : own k2 (JSON.setProp k v props) = own k2 props := by
  have hne2 : ¬ k = k2 := fun h => hne h.symm
  induction props with
  | nil => simp [JSON.setProp, own, hne2]
  | cons e rest ih =>
    obtain ⟨k1, v1⟩ := e
    by_cases h : k1 = k
    · subst h
      simp [JSON.setProp, own, hne2]
    · by_cases h2 : k1 = k2
      · subst h2
        simp [JSON.setProp, own, h]
      · simp only [own, JSON.setProp, h, if_false, List.find?_cons, h2, decide_False] at ih ⊢
        exact ih

/-- An entry not among the keys of a list is not an own member. -/
theorem own_eq_none_of_not_mem (k : String) (props : List (String × JsVal))
    (h : k ∉ props.map Prod.fst) : own k props = none := by
  induction props with
  | nil => rfl
  | cons e rest ih =>
    obtain ⟨k1, v1⟩ := e
    simp only [List.map_cons, List.mem_cons, not_or] at h
    have h1 : ¬ k1 = k := fun h2 => h.1 h2.symm
    simp only [own, List.find?_cons, h1, decide_False] at ih ⊢
    exact ih h.2

/-- Members of a spread onto a target: those of the source first, then
those of the target. -/
theorem own_mergeProps (k : String) (source target : List (String × JsVal))
    (hnodup : (source.map Prod.fst).Nodup) :
    own k (mergeProps target source) =
      match own k source with
      | some v => some v
      | none => own k target := by
  induction source generalizing target with
  | nil => rfl
  | cons e rest ih =>
    obtain ⟨k1, v1⟩ := e
    simp only [List.map_cons, List.nodup_cons] at hnodup
    have hstep : mergeProps target ((k1, v1) :: rest) =
        mergeProps (JSON.setProp k1 v1 target) rest := rfl
    rw [hstep, ih _ hnodup.2]
    by_cases h : k1 = k
    · subst h
      rw [own_eq_none_of_not_mem _ _ hnodup.1, own_setProp_self]
      simp [own]
    · have h2 : k ≠ k1 := fun h3 => h h3.symm
      rw [own_setProp_ne _ _ _ _ h2]
      simp [own, h]

/-- A spread never removes a member of its target. -/
theorem own_mergeProps_isSome (k : String) (source target : List (String × JsVal))
    (h : (own k target).isSome = true) : (own k (mergeProps target source)).isSome = true := by
  induction source generalizing target with
  | nil => exact h
  | cons e rest ih =>
    obtain ⟨k1, v1⟩ := e
    have hstep : mergeProps target ((k1, v1) :: rest) =
        mergeProps (JSON.setProp k1 v1 target) rest := rfl
    rw [hstep]
    apply ih
    by_cases h1 : k = k1
    · subst h1
      rw [own_setProp_self]
      rfl
    · rw [own_setProp_ne _ _ _ _ h1]
      exact h

end JsVal

/-! ## Message lookup `t` -/

namespace I18nContext

open JsVal

/-- C11, counterexample. A key that is present with the empty text is not
returned unchanged: `t("greeting")` on the table with `greeting` mapped to
the empty text returns the key. And a key that is absent is not always
returned literally: `t("constructor")` on the default messages returns the
built-in member every object inherits. -/
theorem t_returns_entry_counterexample :
    (own "greeting" emptyGreeting = some (str "") ∧
      t emptyGreeting "greeting" [] = .ok (.val (str "greeting")) ∧
      t emptyGreeting "greeting" [] ≠ .ok (.val (str ""))) ∧
    (own "constructor" defaultMessages = none ∧
      t defaultMessages "constructor" [] = .ok (.builtin "constructor") ∧
      t defaultMessages "constructor" [] ≠ .ok (.val (str "constructor"))) := by
  have h1 : t emptyGreeting "greeting" [] = .ok (.val (str "greeting")) := rfl
  have h2 : t defaultMessages "constructor" [] = .ok (.builtin "constructor") := rfl
  refine ⟨⟨rfl, h1, ?_⟩, rfl, h2, ?_⟩
  · rw [h1]
    simp
  · rw [h2]
    simp

/-- C11, amended. With no params, `t(key)` returns the entry of the key
when it is present and truthy (for a text: not empty); it returns the
literal key when the entry is present but falsy, and when the key is absent
and is not the name of a member inherited from `Object.prototype`. On the
default messages `t("nonexistent.key")` is `nonexistent.key` and
`t("auth.login")` is `Login`. -/
theorem t_without_params (messages : List (String × JsVal)) (key : String) :
    (∀ v, own key messages = some v → v.truthy = true →
      t messages key [] = .ok (.val v)) ∧
    (∀ v, own key messages = some v → v.truthy = false →
      t messages key [] = .ok (.val (str key))) ∧
    (own key messages = none → key ∉ AuthContext.objectPrototypeMembers →
      t messages key [] = .ok (.val (str key))) ∧
    t defaultMessages "nonexistent.key" [] = .ok (.val (str "nonexistent.key")) ∧
    t defaultMessages "auth.login" [] = .ok (.val (str "Login")) := by
  refine ⟨?_, ?_, ?_, rfl, rfl⟩
  · intro v hown hv
    simp [t, readMessage, hown, Member.truthy, hv]
  · intro v hown hv
    simp [t, readMessage, hown, Member.truthy, hv]
  · intro hown hkey
    simp [t, readMessage, hown, hkey, Member.truthy, JsVal.truthy]

/-- Witness for C11: a present entry, an empty entry and an absent key. -/
theorem t_without_params_witness :
    t defaultMessages "nav.students" [] = .ok (.val (str "Students")) ∧
    t emptyGreeting "greeting" [] = .ok (.val (str "greeting")) ∧
    t emptyGreeting "farewell" [] = .ok (.val (str "farewell")) :=
  ⟨(t_without_params defaultMessages "nav.students").1 (str "Students") rfl rfl,
   (t_without_params emptyGreeting "greeting").2.1 (str "") rfl rfl,
   (t_without_params emptyGreeting "farewell").2.2.1 rfl (by decide)⟩

/-- C12, evaluated at the failing input. The message holds the placeholder
of `name` twice; `t("greet", (name: "Amy"))` replaces the first occurrence
only and leaves the second placeholder in the result. -/
theorem t_replaces_first_occurrence_only :
    own "greet" doubleGreeting = some (str "\x7bname\x7d and \x7bname\x7d") ∧
    t doubleGreeting "greet" [("name", str "Amy")] =
      .ok (.val (str "Amy and \x7bname\x7d")) ∧
    t doubleGreeting "greet" [("name", str "Amy")] ≠ .ok (.val (str "Amy and Amy")) := by
  have h : t doubleGreeting "greet" [("name", str "Amy")] =
      .ok (.val (str "Amy and \x7bname\x7d")) := rfl
  refine ⟨rfl, h, ?_⟩
  rw [h]
  simp

/-- A placeholder for which no param is supplied stays: a message without
the placeholder of `param` is not changed by the round for `param`. -/
theorem substitute_absent_placeholder (params : List (String × JsVal)) (text param : String)
    (h : JsString.splitAtFirst ("\x7b" ++ param ++ "\x7d").data text.data = none) :
    substitute params (.ok (.val (str text))) param = .ok (.val (str text)) := by
  simp only [substitute, JsString.replace, h]

end I18nContext

/-! ## loadMessages -/

namespace I18nContext

open JsVal

/-- The copy `(...defaultMessages)` has the members of `defaultMessages`. -/
theorem mergeProps_nil_defaultMessages : mergeProps [] defaultMessages = defaultMessages := rfl

/-- Whatever the outcome of the request, `loadMessages` ends with
`loading = false`. -/
theorem loadMessages_loading (code : JsVal) (r : AuthContext.FetchResult) (s : I18nWorld) :
    (loadMessages code r s).loading = false := rfl

/-- C13, counterexample. The request for `hi` fails with a network error:
`loadMessages` sets the default mapping, whose `auth.login` is `Login`, not
the Hindi table merged on the default mapping, whose `auth.login` is the
Hindi text. -/
theorem loadMessages_network_error_counterexample :
    (loadMessages (str "hi") (.rejected ⟨"Failed to fetch"⟩) (mount [] "en" "ltr")).messages =
      defaultMessages ∧
    own "auth.login"
      (loadMessages (str "hi") (.rejected ⟨"Failed to fetch"⟩) (mount [] "en" "ltr")).messages =
      some (str "Login") ∧
    own "auth.login" (mergeProps defaultMessages hindiOverrides) = some (str "लॉगिन") ∧
    (loadMessages (str "hi") (.rejected ⟨"Failed to fetch"⟩) (mount [] "en" "ltr")).messages ≠
      mergeProps defaultMessages hindiOverrides := by
  refine ⟨rfl, rfl, rfl, ?_⟩
  intro h
  have h1 : own "auth.login"
      (loadMessages (str "hi") (.rejected ⟨"Failed to fetch"⟩) (mount [] "en" "ltr")).messages =
      some (str "Login") := rfl
  have h2 : own "auth.login" (mergeProps defaultMessages hindiOverrides) =
      some (str "लॉगिन") := rfl
  rw [h, h2] at h1
  simp at h1

/-- C13, amended. On a non-2xx response `loadMessages` sets the hard-coded
table of the language merged on the default mapping for `hi` and `mr`, and
the default mapping for every other code. On a network error, and when the
body of a 2xx response cannot be read, it sets the default mapping for
every code. It is a total function of the state and always ends with
`loading = false`. -/
theorem loadMessages_failure_fallback (code : JsVal) (s : I18nWorld) :
    (∀ json, code = str "hi" →
      (loadMessages code (.response false json) s).messages =
        mergeProps defaultMessages hindiOverrides) ∧
    (∀ json, code = str "mr" →
      (loadMessages code (.response false json) s).messages =
        mergeProps defaultMessages marathiOverrides) ∧
    (∀ json, code ≠ str "hi" → code ≠ str "mr" →
      (loadMessages code (.response false json) s).messages = defaultMessages) ∧
    (∀ e, (loadMessages code (.rejected e) s).messages = defaultMessages) ∧
    (∀ e, (loadMessages code (.response true (.error e)) s).messages = defaultMessages) ∧
    (∀ r, (loadMessages code r s).loading = false) := by
  refine ⟨?_, ?_, ?_, fun _ => rfl, fun _ => rfl, fun _ => rfl⟩
  · intro json h
    subst h
    rfl
  · intro json h
    subst h
    rfl
  · intro json h1 h2
    have e1 : strictEq code (str "hi") = false := by
      rw [Bool.eq_false_iff]
      exact fun h => h1 ((AuthContext.strictEq_str code "hi").mp h)
    have e2 : strictEq code (str "mr") = false := by
      rw [Bool.eq_false_iff]
      exact fun h => h2 ((AuthContext.strictEq_str code "mr").mp h)
    show fallbackMessages code = defaultMessages
    simp only [fallbackMessages, e1, e2]
    rfl

/-- Witness for C13: a 503 answer for `mr` and for `fr`. -/
theorem loadMessages_failure_fallback_witness :
    (loadMessages (str "mr") (.response false (.ok null)) (mount [] "en" "ltr")).messages =
      mergeProps defaultMessages marathiOverrides ∧
    (loadMessages (str "fr") (.response false (.ok null)) (mount [] "en" "ltr")).messages =
      defaultMessages :=
  ⟨(loadMessages_failure_fallback (str "mr") (mount [] "en" "ltr")).2.1 (.ok null) rfl,
   (loadMessages_failure_fallback (str "fr") (mount [] "en" "ltr")).2.2.1 (.ok null)
      (by simp) (by simp)⟩

/-- C14. On a 2xx response whose body is the mapping `data`, `loadMessages`
sets `messages` to the default mapping overlaid with `data`, whatever the
messages were before: every key of `data` has the value of `data`, every
other default key its default value, and no other key is present. -/
theorem loadMessages_success_overlay (code : JsVal) (data : List (String × JsVal))
    (s : I18nWorld) (hkeys : (data.map Prod.fst).Nodup) :
    (loadMessages code (.response true (.ok (obj data))) s).messages =
      mergeProps defaultMessages data ∧
    ∀ k, own k (loadMessages code (.response true (.ok (obj data))) s).messages =
      match own k data with
      | some v => some v
      | none => own k defaultMessages := by
  have h : (loadMessages code (.response true (.ok (obj data))) s).messages =
      mergeProps defaultMessages data := rfl
  refine ⟨h, ?_⟩
  intro k
  rw [h]
  exact own_mergeProps k data defaultMessages hkeys

/-- Witness for C14: a remote table that overrides `auth.login` and adds a
key, loaded over messages that held something else. -/
theorem loadMessages_success_overlay_witness :
    own "auth.login"
      (loadMessages (str "hi")
        (.response true (.ok (obj [("auth.login", str "Anmelden"), ("extra", str "Mehr")])))
        { mount [] "en" "ltr" with messages := emptyGreeting }).messages =
      some (str "Anmelden") ∧
    own "greeting"
      (loadMessages (str "hi")
        (.response true (.ok (obj [("auth.login", str "Anmelden"), ("extra", str "Mehr")])))
        { mount [] "en" "ltr" with messages := emptyGreeting }).messages = none :=
  ⟨(loadMessages_success_overlay (str "hi") [("auth.login", str "Anmelden"), ("extra", str "Mehr")]
      { mount [] "en" "ltr" with messages := emptyGreeting } (by decide)).2 "auth.login",
   (loadMessages_success_overlay (str "hi") [("auth.login", str "Anmelden"), ("extra", str "Mehr")]
      { mount [] "en" "ltr" with messages := emptyGreeting } (by decide)).2 "greeting"⟩

/-- C15. The messages of a freshly mounted provider, and the messages after
`loadMessages` for any language code, any request outcome and any earlier
state, are not empty and have an entry for every key of the default
mapping. -/
theorem messages_cover_defaults (k : String) (hk : (own k defaultMessages).isSome = true) :
    (∀ storage lang dir,
      (own k (mount storage lang dir).messages).isSome = true ∧
      (mount storage lang dir).messages ≠ []) ∧
    (∀ code r s,
      (own k (loadMessages code r s).messages).isSome = true ∧
      (loadMessages code r s).messages ≠ []) := by
  have hne : ∀ m : List (String × JsVal), (own k m).isSome = true → m ≠ [] := by
    intro m hm h
    rw [h] at hm
    cases hm
  have hload : ∀ code r s, (own k (loadMessages code r s).messages).isSome = true := by
    intro code r s
    rcases r with e | ⟨ok, json⟩
    · exact hk
    · cases ok
      · show (own k (fallbackMessages code)).isSome = true
        unfold fallbackMessages
        split
        · exact own_mergeProps_isSome k _ _ hk
        · split
          · exact own_mergeProps_isSome k _ _ hk
          · exact hk
      · rcases json with e | data
        · exact hk
        · exact own_mergeProps_isSome k _ _ hk
  exact ⟨fun _ _ _ => ⟨hk, hne _ hk⟩, fun code r s => ⟨hload code r s, hne _ (hload code r s)⟩⟩

/-- Witness for C15: the default key `nav.reports` after a remote table
that tries to blank it, after a failure and after an array body. -/
theorem messages_cover_defaults_witness :
    (own "nav.reports"
      (loadMessages (str "hi") (.response true (.ok (obj [("nav.reports", null)])))
        (mount [] "en" "ltr")).messages).isSome = true ∧
    (own "nav.reports"
      (loadMessages (str "xx") (.rejected ⟨"Failed to fetch"⟩)
        (mount [] "en" "ltr")).messages).isSome = true ∧
    (loadMessages (str "hi") (.response true (.ok (arr [str "a"])))
      { mount [] "en" "ltr" with messages := [] }).messages ≠ [] :=
  ⟨((messages_cover_defaults "nav.reports" rfl).2 (str "hi")
      (.response true (.ok (obj [("nav.reports", null)]))) (mount [] "en" "ltr")).1,
   ((messages_cover_defaults "nav.reports" rfl).2 (str "xx") (.rejected ⟨"Failed to fetch"⟩)
      (mount [] "en" "ltr")).1,
   ((messages_cover_defaults "nav.reports" rfl).2 (str "hi")
      (.response true (.ok (arr [str "a"]))) { mount [] "en" "ltr" with messages := [] }).2⟩

end I18nContext

/-! ## Language selection -/

namespace I18nContext

open JsVal Storage

/-- The supported codes are `en`, `hi` and `mr`. -/
theorem isSupported_iff (v : JsVal) :
    isSupported v = true ↔ v = str "en" ∨ v = str "hi" ∨ v = str "mr" := by
  cases v with
  | str c =>
    simp only [isSupported, SUPPORTED_LANGUAGES, List.any_cons, List.any_nil, strictEq,
      beq_iff_eq, Bool.or_eq_true, Bool.or_false, str.injEq]
    constructor <;> rintro (rfl | rfl | rfl) <;> simp
  | _ => simp [isSupported, SUPPORTED_LANGUAGES, strictEq]

/-- The language computed on mount is a supported code. -/
theorem isSupported_initialLanguage (s : I18nWorld) (navigatorLanguage : String) :
    isSupported (initialLanguage s navigatorLanguage) = true := by
  unfold initialLanguage
  simp only []
  split
  · rename_i h
    simp only [Bool.and_eq_true] at h
    exact h.2
  · split
    · assumption
    · rfl

/-- C16, counterexample. After `changeLanguage("fr")` on a freshly mounted
provider the state `currentLanguage` is `fr`, which is not a supported code;
it is also what is persisted and what the document language is set to. -/
theorem changeLanguage_unsupported_counterexample :
    (changeLanguage (str "fr") (.response false (.ok null)) (mount [] "en" "ltr")).currentLanguage =
      str "fr" ∧
    isSupported
      (changeLanguage (str "fr") (.response false (.ok null))
        (mount [] "en" "ltr")).currentLanguage = false ∧
    getItem
      (changeLanguage (str "fr") (.response false (.ok null)) (mount [] "en" "ltr")).storage
      "preferred-language" = some "fr" ∧
    (changeLanguage (str "fr") (.response false (.ok null)) (mount [] "en" "ltr")).documentLang =
      "fr" :=
  ⟨rfl, rfl, rfl, rfl⟩

/-- The state a `changeLanguage(code)` call with a code other than the
current one reaches when it has run to completion. -/
theorem changeLanguage_run (code : JsVal) (r : AuthContext.FetchResult) (s : I18nWorld)
    (h : strictEq code s.currentLanguage = false) :
    changeLanguage code r s =
      { currentLanguage := code, messages := loadedMessages code r, loading := false,
        storage := s.storage.setItem "preferred-language" (toStr code),
        documentLang := toStr code,
        documentDir := if includes [str "ar", str "ur", str "fa"] code then "rtl" else "ltr",
        fetched := s.fetched ++ [code] } := by
  simp only [changeLanguage, h, changeLanguageFinish, loadMessagesFinish, changeLanguageStart,
    loadMessagesStart, Bool.not_false, if_true]

/-- C16, amended. After the effect run on mount, `currentLanguage` is a
supported code. `changeLanguage(code)` with a code other than the current
one stores the code as given, supported or not, as `currentLanguage`, as
the persisted preference and as the document language. The language
reported by `getCurrentLanguage()` is always an entry of
`SUPPORTED_LANGUAGES`: the entry of `currentLanguage` when that is supported,
the default entry `en` otherwise. All three are total functions. -/
theorem language_resolution (s : I18nWorld) :
    (∀ navigatorLanguage,
      isSupported (initializeLanguage navigatorLanguage s).currentLanguage = true) ∧
    (∀ code r, strictEq code s.currentLanguage = false →
      (changeLanguage code r s).currentLanguage = code ∧
      getItem (changeLanguage code r s).storage "preferred-language" = some (toStr code) ∧
      (changeLanguage code r s).documentLang = toStr code) ∧
    getCurrentLanguage s ∈ SUPPORTED_LANGUAGES ∧
    (isSupported s.currentLanguage = true →
      str (getCurrentLanguage s).code = s.currentLanguage) ∧
    (isSupported s.currentLanguage = false → (getCurrentLanguage s).code = "en") := by
  refine ⟨fun nav => isSupported_initialLanguage s nav, ?_, ?_, ?_, ?_⟩
  · intro code r h
    rw [changeLanguage_run code r s h]
    exact ⟨rfl, getItem_setItem_self _ _ _, rfl⟩
  · unfold getCurrentLanguage
    split
    · rename_i lang h
      exact List.mem_of_find?_eq_some h
    · simp [SUPPORTED_LANGUAGES]
  · intro h
    rcases (isSupported_iff _).mp h with h1 | h1 | h1 <;>
      simp [getCurrentLanguage, h1, SUPPORTED_LANGUAGES, strictEq]
  · intro h
    have h2 : SUPPORTED_LANGUAGES.find?
        (fun lang => strictEq (str lang.code) s.currentLanguage) = none := by
      rw [List.find?_eq_none]
      intro lang hlang hl
      have : isSupported s.currentLanguage = true := by
        unfold isSupported
        rw [List.any_eq_true]
        exact ⟨lang, hlang, hl⟩
      rw [h] at this
      cases this
    simp only [getCurrentLanguage, h2]
    rfl

/-- Witness for C16: an unsupported persisted preference on mount, and the
language reported after `changeLanguage("fr")`. -/
theorem language_resolution_witness :
    ((changeLanguage (str "fr") (.response false (.ok null))
        (mount [] "en" "ltr")).currentLanguage = str "fr" ∧
      getItem (changeLanguage (str "fr") (.response false (.ok null))
        (mount [] "en" "ltr")).storage "preferred-language" = some "fr" ∧
      (changeLanguage (str "fr") (.response false (.ok null))
        (mount [] "en" "ltr")).documentLang = "fr") ∧
    (getCurrentLanguage
      (changeLanguage (str "fr") (.response false (.ok null)) (mount [] "en" "ltr"))).code =
      "en" ∧
    str (getCurrentLanguage
      (changeLanguage (str "mr") (.response false (.ok null)) (mount [] "en" "ltr"))).code =
      str "mr" :=
  ⟨(language_resolution (mount [] "en" "ltr")).2.1 (str "fr") (.response false (.ok null)) rfl,
   (language_resolution
      (changeLanguage (str "fr") (.response false (.ok null)) (mount [] "en" "ltr"))).2.2.2.2 rfl,
   (language_resolution
      (changeLanguage (str "mr") (.response false (.ok null)) (mount [] "en" "ltr"))).2.2.2.1 rfl⟩

/-- C17, counterexample. `changeLanguage("hi")`, then `changeLanguage("mr")`,
then the Marathi response, then the Hindi response: `currentLanguage` is
`mr`, but `messages` are the Hindi result and differ from the Marathi
result; the document language is `hi`. -/
theorem stale_response_counterexample :
    (run (mount [] "en" "ltr") staleResponseTrace).currentLanguage = str "mr" ∧
    (run (mount [] "en" "ltr") staleResponseTrace).messages =
      mergeProps defaultMessages (ownEntries remoteHindi) ∧
    (run (mount [] "en" "ltr") staleResponseTrace).messages ≠
      mergeProps defaultMessages (ownEntries remoteMarathi) ∧
    (run (mount [] "en" "ltr") staleResponseTrace).documentLang = "hi" := by
  refine ⟨rfl, rfl, ?_, rfl⟩
  intro h
  have h1 : own "auth.login" (run (mount [] "en" "ltr") staleResponseTrace).messages =
      some (str "लॉगिन (hi)") := rfl
  have h2 : own "auth.login" (mergeProps defaultMessages (ownEntries remoteMarathi)) =
      some (str "लॉगिन (mr)") := rfl
  rw [h, h2] at h1
  simp at h1

/-- C17, amended. Responses are applied in arrival order. From a state whose
language is `en`, `changeLanguage("hi")`, then `changeLanguage("mr")`, then
the response for `mr`, then the response for `hi`, leave `currentLanguage`
at `mr`, both requests issued, and `messages` and the document language as
the response for `hi`, the one that arrived last, sets them. -/
theorem responses_apply_in_arrival_order (s : I18nWorld) (rHi rMr : AuthContext.FetchResult)
    (hen : s.currentLanguage = str "en") :
    (run s [.request (str "hi"), .request (str "mr"), .response (str "mr") rMr,
        .response (str "hi") rHi]).currentLanguage = str "mr" ∧
    (run s [.request (str "hi"), .request (str "mr"), .response (str "mr") rMr,
        .response (str "hi") rHi]).fetched = s.fetched ++ [str "hi", str "mr"] ∧
    (run s [.request (str "hi"), .request (str "mr"), .response (str "mr") rMr,
        .response (str "hi") rHi]).messages = (loadMessages (str "hi") rHi s).messages ∧
    (run s [.request (str "hi"), .request (str "mr"), .response (str "mr") rMr,
        .response (str "hi") rHi]).documentLang = "hi" := by
  have hiNe : strictEq (str "hi") s.currentLanguage = false := by rw [hen]; rfl
  have mrNe : strictEq (str "mr") (str "hi") = false := rfl
  simp only [run, List.foldl, step, changeLanguageStart, hiNe, mrNe, Bool.not_false, if_true,
    loadMessagesStart, changeLanguageFinish, loadMessagesFinish, loadMessages]
  simp [toStr]

/-- Witness for C17: the remote tables of the ordering scenario. -/
theorem responses_apply_in_arrival_order_witness :
    (run (mount [] "en" "ltr") staleResponseTrace).messages =
      (loadMessages (str "hi") (.response true (.ok remoteHindi)) (mount [] "en" "ltr")).messages :=
  (responses_apply_in_arrival_order (mount [] "en" "ltr") (.response true (.ok remoteHindi))
    (.response true (.ok remoteMarathi)) rfl).2.2.1

/-- C20. The effect run on mount resolves the language to the persisted
preference when that is a supported code, otherwise to the primary subtag of
the browser language when that is a supported code, otherwise to `en`. The
resolved code is supported; it becomes `currentLanguage` and the document
language and is the code for which messages are requested. -/
theorem initializeLanguage_resolution (navigatorLanguage : String) (s : I18nWorld) :
    (∀ c, getItem s.storage "preferred-language" = some c → isSupported (str c) = true →
      initialLanguage s navigatorLanguage = str c) ∧
    ((getItem s.storage "preferred-language" = none ∨
        ∃ c, getItem s.storage "preferred-language" = some c ∧ isSupported (str c) = false) →
      (isSupported (str (primarySubtag navigatorLanguage)) = true →
        initialLanguage s navigatorLanguage = str (primarySubtag navigatorLanguage)) ∧
      (isSupported (str (primarySubtag navigatorLanguage)) = false →
        initialLanguage s navigatorLanguage = str "en")) ∧
    isSupported (initialLanguage s navigatorLanguage) = true ∧
    (initializeLanguage navigatorLanguage s).currentLanguage =
      initialLanguage s navigatorLanguage ∧
    (initializeLanguage navigatorLanguage s).documentLang =
      toStr (initialLanguage s navigatorLanguage) ∧
    (initializeLanguage navigatorLanguage s).fetched =
      s.fetched ++ [initialLanguage s navigatorLanguage] := by
  refine ⟨?_, ?_, isSupported_initialLanguage s navigatorLanguage, rfl, rfl, rfl⟩
  · intro c hc hsup
    have hne : c ≠ "" := by
      rcases (isSupported_iff _).mp hsup with h | h | h <;>
        · simp only [str.injEq] at h
          subst h
          decide
    simp [initialLanguage, hc, AuthContext.ofItem, truthy, hne, hsup]
  · intro h
    have hsaved : ((AuthContext.ofItem (getItem s.storage "preferred-language")).truthy &&
        isSupported (AuthContext.ofItem (getItem s.storage "preferred-language"))) = false := by
      rcases h with h | ⟨c, hc, hsup⟩
      · simp [h, AuthContext.ofItem, truthy]
      · simp [hc, AuthContext.ofItem, hsup]
    constructor
    · intro hb
      simp only [initialLanguage, hsaved, hb]
      rfl
    · intro hb
      simp only [initialLanguage, hsaved, hb]
      rfl

/-- Witness for C20: a persisted `mr`; an unsupported persisted `fr` with
browser language `hi-IN`; nothing persisted with browser language `fr-FR`. -/
theorem initializeLanguage_resolution_witness :
    initialLanguage (mount [("preferred-language", "mr")] "" "") "hi-IN" = str "mr" ∧
    initialLanguage (mount [("preferred-language", "fr")] "" "") "hi-IN" = str "hi" ∧
    initialLanguage (mount [] "" "") "fr-FR" = str "en" :=
  ⟨(initializeLanguage_resolution "hi-IN" (mount [("preferred-language", "mr")] "" "")).1 "mr"
      rfl rfl,
   ((initializeLanguage_resolution "hi-IN" (mount [("preferred-language", "fr")] "" "")).2.1
      (Or.inr ⟨"fr", rfl, rfl⟩)).1 rfl,
   ((initializeLanguage_resolution "fr-FR" (mount [] "" "")).2.1 (Or.inl rfl)).2 rfl⟩

end I18nContext

/-! ## Response interceptor -/

namespace Api

open Storage

/-- C18, evaluated at the failing input. Storage holds the `user` and
`token` entries of a logged-in session and a response with status 401
arrives: the interceptor removes `token` and sets the location to `/login`,
but the `user` entry is still in storage afterwards. -/
theorem interceptor_401_keeps_user_entry :
    (responseErrorInterceptor (some 401)
      ⟨AuthContext.sampleLoggedIn.storage, "/students"⟩).location = "/login" ∧
    getItem
      (responseErrorInterceptor (some 401)
        ⟨AuthContext.sampleLoggedIn.storage, "/students"⟩).storage "token" = none ∧
    getItem
      (responseErrorInterceptor (some 401)
        ⟨AuthContext.sampleLoggedIn.storage, "/students"⟩).storage "user" =
      some (JSON.stringify AuthContext.sampleUser) ∧
    getItem (AuthContext.logout AuthContext.sampleLoggedIn).storage "user" = none :=
  ⟨rfl, rfl, rfl, rfl⟩

/-- On status 401 the interceptor removes the `token` entry, leaves every
other entry as it is and sets the location to `/login`; on any other error
it changes nothing. -/
theorem interceptor_effect (status : Option Int) (b : Browser) :
    (status = some 401 →
      (responseErrorInterceptor status b).location = "/login" ∧
      getItem (responseErrorInterceptor status b).storage "token" = none ∧
      ∀ k, k ≠ "token" →
        getItem (responseErrorInterceptor status b).storage k = getItem b.storage k) ∧
    (status ≠ some 401 → responseErrorInterceptor status b = b) := by
  constructor
  · intro h
    subst h
    exact ⟨rfl, getItem_removeItem_self _ _, fun k hk => getItem_removeItem_ne _ _ _ hk⟩
  · intro h
    simp [responseErrorInterceptor, h]

end Api

/-! ## Route guard -/

namespace App

open JsVal AuthContext

/-- C19. The guard is fail-closed. While the session restore is in progress
the decision is Loading. Otherwise, with no authenticated user it is the
redirect to login; with an authenticated user whose role is not in a
non-empty required set it is the redirect to the landing view; and it is
Allowed exactly when the restore is over, the user is authenticated and the
required set is empty or contains the role of the user. On the route table
of `App`, an authenticated STUDENT at `/teachers` is redirected to the
landing view and an unauthenticated visitor of any path is redirected to
login. -/
theorem privateRoute_fail_closed (w : World) (requiredRole : JsVal) :
    (w.loading = true → privateRoute w requiredRole = .loading) ∧
    (w.loading = false → isAuthenticated w = false →
      privateRoute w requiredRole = .redirectToLogin) ∧
    (w.loading = false → isAuthenticated w = true → requiredRoles requiredRole ≠ [] →
      includes (requiredRoles requiredRole) (getPropOpt w.user "role") = false →
      privateRoute w requiredRole = .redirectToLanding) ∧
    (privateRoute w requiredRole = .allowed ↔
      w.loading = false ∧ isAuthenticated w = true ∧
        (requiredRoles requiredRole = [] ∨
          includes (requiredRoles requiredRole) (getPropOpt w.user "role") = true)) ∧
    (w.loading = false → isAuthenticated w = true → getPropOpt w.user "role" = str "STUDENT" →
      guardedRoute w "/teachers" = .redirectToLanding) ∧
    (w.loading = false → isAuthenticated w = false →
      ∀ path, guardedRoute w path = .redirectToLogin) := by
  refine ⟨?_, ?_, ?_, ?_, ?_, ?_⟩
  · intro h
    simp [privateRoute, h]
  · intro h1 h2
    simp [privateRoute, h1, h2]
  · intro h1 h2 h3 h4
    simp [privateRoute, h1, h2, h3, h4]
  · cases h1 : w.loading
    · cases h2 : isAuthenticated w
      · simp [privateRoute, h1, h2]
      · by_cases h3 : requiredRoles requiredRole = []
        · simp [privateRoute, h1, h2, h3]
        · cases h4 : includes (requiredRoles requiredRole) (getPropOpt w.user "role") <;>
            simp [privateRoute, h1, h2, h3, h4]
    · simp [privateRoute, h1]
  · intro h1 h2 h3
    have houter : privateRoute w undefined = .allowed := by
      simp [privateRoute, h1, h2, requiredRoles]
    have hroute : routeGuard "/teachers" = some (str "ADMIN") := rfl
    simp only [guardedRoute, houter, hroute]
    simp [privateRoute, h1, h2, requiredRoles, includes, h3, strictEq]
  · intro h1 h2 path
    have houter : privateRoute w undefined = .redirectToLogin := by
      simp [privateRoute, h1, h2]
    simp only [guardedRoute, houter]

/-- Witness for C19: the restored STUDENT session at `/teachers`, a provider
still restoring, and a restored provider without session. -/
theorem privateRoute_fail_closed_witness :
    guardedRoute sampleStudent "/teachers" = .redirectToLanding ∧
    privateRoute (AuthContext.mount [] none) (str "ADMIN") = .loading ∧
    guardedRoute { AuthContext.mount [] none with loading := false } "/teachers" =
      .redirectToLogin :=
  ⟨(privateRoute_fail_closed sampleStudent undefined).2.2.2.2.1 rfl rfl rfl,
   (privateRoute_fail_closed (AuthContext.mount [] none) (str "ADMIN")).1 rfl,
   (privateRoute_fail_closed { AuthContext.mount [] none with loading := false }
      undefined).2.2.2.2.2 rfl rfl "/teachers"⟩

end App

/-! ## changeLanguage -/

namespace I18nContext

open JsVal Storage

/-- C21. A call of `changeLanguage(code)` with the code that is already the
current language changes nothing: no message request is issued, and
`currentLanguage`, `messages`, the persisted preference and the document
language and direction are what they were; this holds for the part of the
call before its suspension and for the call run to completion. -/
theorem changeLanguage_same_code (c : String) (r : AuthContext.FetchResult) (s : I18nWorld)
    (hcur : s.currentLanguage = str c) :
    changeLanguageStart (str c) s = s ∧
    changeLanguage (str c) r s = s ∧
    (changeLanguage (str c) r s).fetched = s.fetched ∧
    (changeLanguage (str c) r s).currentLanguage = s.currentLanguage ∧
    (changeLanguage (str c) r s).messages = s.messages ∧
    getItem (changeLanguage (str c) r s).storage "preferred-language" =
      getItem s.storage "preferred-language" ∧
    (changeLanguage (str c) r s).documentLang = s.documentLang ∧
    (changeLanguage (str c) r s).documentDir = s.documentDir := by
  have heq : strictEq (str c) s.currentLanguage = true := by
    rw [hcur]
    simp [strictEq]
  have h1 : changeLanguageStart (str c) s = s := by
    simp [changeLanguageStart, heq]
  have h2 : changeLanguage (str c) r s = s := by
    simp [changeLanguage, heq]
  rw [h2]
  exact ⟨h1, rfl, rfl, rfl, rfl, rfl, rfl, rfl⟩

/-- Witness for C21: `changeLanguage("en")` on a freshly mounted provider. -/
theorem changeLanguage_same_code_witness :
    changeLanguage (str "en") (.response true (.ok remoteHindi)) (mount [] "en" "ltr") =
      mount [] "en" "ltr" ∧
    (changeLanguage (str "en") (.response true (.ok remoteHindi)) (mount [] "en" "ltr")).fetched =
      [] :=
  ⟨(changeLanguage_same_code "en" (.response true (.ok remoteHindi)) (mount [] "en" "ltr")
      rfl).2.1,
   (changeLanguage_same_code "en" (.response true (.ok remoteHindi)) (mount [] "en" "ltr")
      rfl).2.2.1⟩

/-- The direction test of `changeLanguage` on a string. -/
theorem includes_rtl (c : String) :
    includes [str "ar", str "ur", str "fa"] (str c) = true ↔ c = "ar" ∨ c = "ur" ∨ c = "fa" := by
  simp only [includes, List.any_cons, List.any_nil, strictEq, beq_iff_eq, Bool.or_eq_true,
    Bool.or_false]
  constructor <;> rintro (rfl | rfl | rfl) <;> simp

/-- C22. A call of `changeLanguage(code)` with a code other than the
current language, run to completion, sets `currentLanguage` to the code,
stores the code under `preferred-language`, and issues one message request
for the code. It sets `messages` from the outcome of that request: to the
default mapping overlaid with the body of a 2xx response, to the table of
the code (`hi`, `mr`) merged on the default mapping or else the default
mapping on a non-2xx response, and to the default mapping when the request
or the reading of the body fails. It sets the document language to the
code, and the document direction to `rtl` exactly when the code is `ar`,
`ur` or `fa`, and to `ltr` otherwise. -/
theorem changeLanguage_other_code (c : String) (r : AuthContext.FetchResult) (s : I18nWorld)
    (hcur : s.currentLanguage ≠ str c) :
    (changeLanguage (str c) r s).currentLanguage = str c ∧
    getItem (changeLanguage (str c) r s).storage "preferred-language" = some c ∧
    (changeLanguage (str c) r s).fetched = s.fetched ++ [str c] ∧
    (∀ data, r = .response true (.ok data) →
      (changeLanguage (str c) r s).messages = mergeProps defaultMessages (ownEntries data)) ∧
    (∀ json, r = .response false json →
      (c = "hi" →
        (changeLanguage (str c) r s).messages = mergeProps defaultMessages hindiOverrides) ∧
      (c = "mr" →
        (changeLanguage (str c) r s).messages = mergeProps defaultMessages marathiOverrides) ∧
      (c ≠ "hi" → c ≠ "mr" → (changeLanguage (str c) r s).messages = defaultMessages)) ∧
    (((∃ e, r = .rejected e) ∨ (∃ e, r = .response true (.error e))) →
      (changeLanguage (str c) r s).messages = defaultMessages) ∧
    (changeLanguage (str c) r s).loading = false ∧
    (changeLanguage (str c) r s).documentLang = c ∧
    ((changeLanguage (str c) r s).documentDir = "rtl" ↔ c = "ar" ∨ c = "ur" ∨ c = "fa") ∧
    ((changeLanguage (str c) r s).documentDir = "ltr" ↔ ¬ (c = "ar" ∨ c = "ur" ∨ c = "fa")) := by
  have hne : strictEq (str c) s.currentLanguage = false := by
    rw [Bool.eq_false_iff]
    intro h
    apply hcur
    cases hs : s.currentLanguage <;> rw [hs] at h <;> simp [strictEq] at h
    rw [h]
  rw [changeLanguage_run (str c) r s hne]
  refine ⟨rfl, getItem_setItem_self _ _ _, rfl, ?_, ?_, ?_, rfl, rfl, ?_, ?_⟩
  · intro data hr
    subst hr
    rfl
  · intro json hr
    subst hr
    refine ⟨?_, ?_, ?_⟩
    · intro hc
      subst hc
      rfl
    · intro hc
      subst hc
      rfl
    · intro h1 h2
      have e1 : strictEq (str c) (str "hi") = false := by simp [strictEq, h1]
      have e2 : strictEq (str c) (str "mr") = false := by simp [strictEq, h2]
      show fallbackMessages (str c) = defaultMessages
      simp only [fallbackMessages, e1, e2]
      rfl
  · rintro (⟨e, hr⟩ | ⟨e, hr⟩) <;> subst hr <;> rfl
  · by_cases h : includes [str "ar", str "ur", str "fa"] (str c) = true
    · simp only [h, if_true, true_iff]
      exact (includes_rtl c).mp h
    · have h2 : ¬ (c = "ar" ∨ c = "ur" ∨ c = "fa") := fun h3 => h ((includes_rtl c).mpr h3)
      simp [h, h2]
  · by_cases h : includes [str "ar", str "ur", str "fa"] (str c) = true
    · have h2 : c = "ar" ∨ c = "ur" ∨ c = "fa" := (includes_rtl c).mp h
      simp [h, h2]
    · have h2 : ¬ (c = "ar" ∨ c = "ur" ∨ c = "fa") := fun h3 => h ((includes_rtl c).mpr h3)
      simp [h, h2]

/-- Witness for C22: `changeLanguage("ur")` and `changeLanguage("hi")` on a
freshly mounted provider; for `hi` the login label after a 2xx response
with the remote table, after a 503 response and after a network error. -/
theorem changeLanguage_other_code_witness :
    (changeLanguage (str "ur") (.response false (.ok null)) (mount [] "en" "ltr")).documentDir =
      "rtl" ∧
    (changeLanguage (str "hi") (.response false (.ok null)) (mount [] "en" "rtl")).documentDir =
      "ltr" ∧
    getItem (changeLanguage (str "hi") (.response false (.ok null)) (mount [] "en" "ltr")).storage
      "preferred-language" = some "hi" ∧
    own "auth.login"
      (changeLanguage (str "hi") (.response true (.ok remoteHindi))
        (mount [] "en" "ltr")).messages = some (str "लॉगिन (hi)") ∧
    own "auth.login"
      (changeLanguage (str "hi") (.response false (.ok null))
        (mount [] "en" "ltr")).messages = some (str "लॉगिन") ∧
    own "auth.login"
      (changeLanguage (str "hi") (.rejected ⟨"Failed to fetch"⟩)
        (mount [] "en" "ltr")).messages = some (str "Login") ∧
    own "nav.logout"
      (changeLanguage (str "hi") (.response true (.ok remoteHindi))
        (mount [] "en" "ltr")).messages = some (str "Logout") := by
  have hur := changeLanguage_other_code "ur" (.response false (.ok null)) (mount [] "en" "ltr")
    (by simp [mount])
  have hhi := changeLanguage_other_code "hi" (.response false (.ok null)) (mount [] "en" "rtl")
    (by simp [mount])
  have hfail := changeLanguage_other_code "hi" (.response false (.ok null))
    (mount [] "en" "ltr") (by simp [mount])
  have hok := changeLanguage_other_code "hi" (.response true (.ok remoteHindi))
    (mount [] "en" "ltr") (by simp [mount])
  have hrej := changeLanguage_other_code "hi" (.rejected ⟨"Failed to fetch"⟩)
    (mount [] "en" "ltr") (by simp [mount])
  refine ⟨hur.2.2.2.2.2.2.2.2.1.mpr (Or.inr (Or.inl rfl)),
    hhi.2.2.2.2.2.2.2.2.2.mpr (by decide), hfail.2.1, ?_, ?_, ?_, ?_⟩
  · rw [hok.2.2.2.1 remoteHindi rfl]
    rfl
  · rw [(hfail.2.2.2.2.1 (.ok null) rfl).1 rfl]
    rfl
  · rw [hrej.2.2.2.2.2.1 (Or.inl ⟨_, rfl⟩)]
    rfl
  · rw [hok.2.2.2.1 remoteHindi rfl]
    rfl

end I18nContext

/-! ## register, login results and validateToken outcomes -/

namespace AuthContext

open JsVal Storage

/-- C23, counterexample. The registration request is answered 2xx with a
body that cannot be read as JSON: `register` returns `success: false` with
the message of the exception, not `success: true` with data. -/
theorem register_unreadable_body_counterexample :
    (register sampleCredentials (.response true (.error ⟨"Unexpected end of JSON input"⟩))
      sampleLoggedIn).2 =
      obj [("success", bool false), ("error", str "Unexpected end of JSON input")] ∧
    getPropOpt
      (register sampleCredentials (.response true (.error ⟨"Unexpected end of JSON input"⟩))
        sampleLoggedIn).2 "success" = bool false :=
  ⟨rfl, rfl⟩

/-- C23, amended. Whatever the user data and the outcome of the request,
`register` returns a result and leaves the whole state, and with it `user`,
`token` and the storage entries, as it was. On a 2xx response with a
readable body `data` the result is `success: true` with that `data`. In
every other case it is `success: false` with an error text: on a 2xx
response whose body cannot be read, the message of that exception; on a
non-2xx response, the `error` member of the body or `Registration failed`;
on a network error, its message. -/
theorem register_frame (userData : JsVal) (r : FetchResult) (w : World) :
    (register userData r w).1 = w ∧
    (register userData r w).1.user = w.user ∧
    (register userData r w).1.token = w.token ∧
    getItem (register userData r w).1.storage "token" = getItem w.storage "token" ∧
    getItem (register userData r w).1.storage "user" = getItem w.storage "user" ∧
    (∀ data, (register userData (.response true (.ok data)) w).2 =
      obj [("success", bool true), ("data", data)]) ∧
    (∀ e, (register userData (.response true (.error e)) w).2 =
      obj [("success", bool false), ("error", str e.message)]) ∧
    (∀ errorData, errorData.isNullish = false →
      (register userData (.response false (.ok errorData)) w).2 =
        obj [("success", bool false),
             ("error", str (toStr
               (JsVal.or (getPropOpt errorData "error") (str "Registration failed"))))]) ∧
    (∀ json, ∃ text, (register userData (.response false json) w).2 =
      obj [("success", bool false), ("error", str text)]) ∧
    (∀ e, (register userData (.rejected e) w).2 =
      obj [("success", bool false), ("error", str e.message)]) := by
  have hframe : (register userData r w).1 = w := by
    rcases r with e | ⟨ok, json⟩
    · rfl
    · cases ok <;> rcases json with e | data
      · rfl
      · simp only [register]
        split <;> rfl
      · rfl
      · rfl
  refine ⟨hframe, by rw [hframe], by rw [hframe], by rw [hframe], by rw [hframe],
    fun _ => rfl, fun _ => rfl, ?_, ?_, fun _ => rfl⟩
  · intro errorData hdata
    simp only [register, getProp_of_not_nullish errorData "error" hdata]
  · intro json
    rcases json with e | data
    · exact ⟨_, rfl⟩
    · simp only [register]
      split
      · exact ⟨_, rfl⟩
      · exact ⟨_, rfl⟩

/-- Witness for C23: a 409 answer with an `error` text and one without, on
the logged-in sample state. -/
theorem register_frame_witness :
    (register sampleCredentials (.response false (.ok (obj [("error", str "Username taken")])))
      sampleLoggedIn).2 = obj [("success", bool false), ("error", str "Username taken")] ∧
    (register sampleCredentials (.response false (.ok (obj []))) sampleLoggedIn).2 =
      obj [("success", bool false), ("error", str "Registration failed")] ∧
    (register sampleCredentials (.response true (.ok (obj [("id", num 3)]))) sampleLoggedIn) =
      (sampleLoggedIn, obj [("success", bool true), ("data", obj [("id", num 3)])]) := by
  have h := register_frame sampleCredentials
    (.response true (.ok (obj [("id", num 3)]))) sampleLoggedIn
  refine ⟨h.2.2.2.2.2.2.2.1 (obj [("error", str "Username taken")]) rfl,
    h.2.2.2.2.2.2.2.1 (obj []) rfl, ?_⟩
  exact Prod.ext h.1 (h.2.2.2.2.2.1 _)

/-- A non-2xx answer to `register` with a non-empty `error` text returns
that text; without one it returns `Registration failed`. -/
theorem register_error_text (userData : JsVal) (props : List (String × JsVal)) (w : World) :
    (∀ text, lookup "error" props = str text → text ≠ "" →
      (register userData (.response false (.ok (obj props))) w).2 =
        obj [("success", bool false), ("error", str text)]) ∧
    ((lookup "error" props).truthy = false →
      (register userData (.response false (.ok (obj props))) w).2 =
        obj [("success", bool false), ("error", str "Registration failed")]) := by
  constructor
  · intro text h hne
    simp [register, getProp, h, JsVal.or, truthy, hne, toStr]
  · intro h
    simp [register, getProp, JsVal.or, h, toStr]

/-- C24, counterexample. A login whose request is rejected returns the
message of the network error, not `Login failed`. And a 2xx payload with a
truthy success flag, a token and `error: "x"` but no user makes login fail
with the text of the TypeError raised at `data.user.id`, not with `x`. -/
theorem login_error_text_counterexample :
    (login sampleCredentials (.rejected ⟨"Failed to fetch"⟩) (mount [] none)).2 =
      obj [("success", bool false), ("error", str "Failed to fetch")] ∧
    (login sampleCredentials (.rejected ⟨"Failed to fetch"⟩) (mount [] none)).2 ≠
      obj [("success", bool false), ("error", str "Login failed")] ∧
    (login sampleCredentials
      (.response true (.ok (obj [("success", bool true), ("token", str "abc"),
        ("error", str "x")]))) (mount [] none)).2 =
      obj [("success", bool false),
           ("error", str "Cannot read properties of undefined (reading \x27id\x27)")] := by
  have h : (login sampleCredentials (.rejected ⟨"Failed to fetch"⟩) (mount [] none)).2 =
      obj [("success", bool false), ("error", str "Failed to fetch")] := rfl
  refine ⟨h, ?_, rfl⟩
  rw [h]
  simp

/-- C24, amended. When login fails because the response is not 2xx or its
payload, which is not null, has no truthy success flag, the returned error
is the `error` member of the payload verbatim if that is a non-empty text;
otherwise the `message` member if that is a non-empty text; and
`Login failed` if both are empty or missing. When login fails because the
request is rejected or the body of the response cannot be read, the
returned error is the message of that exception. -/
theorem login_error_text (c : JsVal) (w : World) :
    (∀ data ok, data.isNullish = false →
      (ok = false ∨ (getPropOpt data "success").truthy = false) →
      (∀ text, getPropOpt data "error" = str text → text ≠ "" →
        (login c (.response ok (.ok data)) w).2 =
          obj [("success", bool false), ("error", str text)]) ∧
      (∀ text, (getPropOpt data "error").truthy = false →
        getPropOpt data "message" = str text → text ≠ "" →
        (login c (.response ok (.ok data)) w).2 =
          obj [("success", bool false), ("error", str text)]) ∧
      ((getPropOpt data "error").truthy = false → (getPropOpt data "message").truthy = false →
        (login c (.response ok (.ok data)) w).2 =
          obj [("success", bool false), ("error", str "Login failed")])) ∧
    (∀ e, (login c (.rejected e) w).2 =
      obj [("success", bool false), ("error", str e.message)]) ∧
    (∀ ok e, (login c (.response ok (.error e)) w).2 =
      obj [("success", bool false), ("error", str e.message)]) := by
  refine ⟨?_, fun _ => rfl, fun _ _ => rfl⟩
  intro data ok hdata hfail
  have hget : ∀ key, getProp data key = .ok (getPropOpt data key) :=
    fun key => getProp_of_not_nullish data key hdata
  have hres : (login c (.response ok (.ok data)) w).2 =
      obj [("success", bool false), ("error", str (throwLoginFailure data).message)] := by
    rcases hfail with h | h
    · subst h
      rfl
    · cases ok
      · rfl
      · simp [login, loginTry, hget, h]
  rw [hres]
  refine ⟨?_, ?_, ?_⟩
  · intro text h hne
    have htr : (str text).truthy = true := by simp [truthy, hne]
    simp [throwLoginFailure, loginFailureValue, hget, h, htr, toStr]
  · intro text he h hne
    have htr : (str text).truthy = true := by simp [truthy, hne]
    simp [throwLoginFailure, loginFailureValue, hget, he, h, htr, toStr]
  · intro he hm
    simp [throwLoginFailure, loginFailureValue, hget, he, hm, toStr]

/-- Witness for C24: a 401 answer with an `error` text, a 2xx answer
without success flag but with a `message`, a 500 answer with neither, and a
response whose body cannot be read. -/
theorem login_error_text_witness :
    (login sampleCredentials
      (.response false (.ok (obj [("error", str "Invalid credentials")]))) (mount [] none)).2 =
      obj [("success", bool false), ("error", str "Invalid credentials")] ∧
    (login sampleCredentials
      (.response true (.ok (obj [("message", str "Account locked")]))) (mount [] none)).2 =
      obj [("success", bool false), ("error", str "Account locked")] ∧
    (login sampleCredentials (.response false (.ok (obj []))) (mount [] none)).2 =
      obj [("success", bool false), ("error", str "Login failed")] ∧
    (login sampleCredentials (.response false (.error ⟨"Unexpected token in JSON"⟩))
      (mount [] none)).2 =
      obj [("success", bool false), ("error", str "Unexpected token in JSON")] :=
  ⟨((login_error_text sampleCredentials (mount [] none)).1
      (obj [("error", str "Invalid credentials")]) false rfl (Or.inl rfl)).1
      "Invalid credentials" rfl (by decide),
   ((login_error_text sampleCredentials (mount [] none)).1
      (obj [("message", str "Account locked")]) true rfl (Or.inr rfl)).2.1
      "Account locked" rfl rfl (by decide),
   ((login_error_text sampleCredentials (mount [] none)).1 (obj []) false rfl
      (Or.inl rfl)).2.2 rfl rfl,
   (login_error_text sampleCredentials (mount [] none)).2.2 false ⟨"Unexpected token in JSON"⟩⟩

/-- C25, counterexample. The response is 2xx with a truthy success flag and
a user but no `token`: `login` returns `success: true`, the in-memory token
is `undefined`, and `isAuthenticated` is false afterwards. -/
theorem login_success_without_token_counterexample :
    (login sampleCredentials (.response true (.ok payloadWithoutToken)) (mount [] none)).2 =
      obj [("success", bool true), ("data", payloadWithoutToken)] ∧
    (login sampleCredentials (.response true (.ok payloadWithoutToken)) (mount [] none)).1.token =
      undefined ∧
    isAuthenticated
      (login sampleCredentials (.response true (.ok payloadWithoutToken)) (mount [] none)).1 =
      false :=
  ⟨rfl, rfl, rfl⟩

/-- C25, amended. Whenever `login` returns `success: true`, the in-memory
user is a record, the in-memory token is the `token` member of the response
payload, and `isAuthenticated` is true afterwards exactly when that member
is truthy. -/
theorem login_success_authenticated_iff (c : JsVal) (r : FetchResult) (w : World)
    (hsuccess : getPropOpt (login c r w).2 "success" = bool true) :
    ∃ data, r = .response true (.ok data) ∧
      (∃ props, (login c r w).1.user = obj props) ∧
      (login c r w).1.token = getPropOpt data "token" ∧
      isAuthenticated (login c r w).1 = (getPropOpt data "token").truthy := by
  rcases r with e | ⟨ok, json⟩
  · simp [login, loginTry, getPropOpt, lookup] at hsuccess
  · rcases json with e | data
    · simp [login, loginTry, getPropOpt, lookup] at hsuccess
    · cases ok
      · simp [login, loginTry, getPropOpt, lookup] at hsuccess
      · rcases hs : getProp data "success" with e | flag
        · simp [login, loginTry, hs, getPropOpt, lookup] at hsuccess
        · cases hf : flag.truthy
          · simp [login, loginTry, hs, hf, getPropOpt, lookup] at hsuccess
          · rcases ht : getProp data "token" with e | tok
            · simp [login, loginTry, hs, hf, ht, getPropOpt, lookup] at hsuccess
            · rcases hu : userRecord data with e | record
              · simp [login, loginTry, hs, hf, ht, hu, getPropOpt, lookup] at hsuccess
              · have htok : getPropOpt data "token" = tok := by
                  cases data <;> simp_all [getProp, getPropOpt]
                have hrec : ∃ props, record = obj props := by
                  simp only [userRecord] at hu
                  split at hu
                  · cases hu
                  · split at hu
                    · cases hu
                      exact ⟨_, rfl⟩
                    · cases hu
                    · cases hu
                    · cases hu
                obtain ⟨props, hprops⟩ := hrec
                have hobj : (obj props).truthy = true := rfl
                have hworld : (login c (.response true (.ok data)) w).1 =
                    { user := record, token := tok, loading := w.loading,
                      storage := (w.storage.setItem "token" (toStr tok)).setItem "user"
                        (JSON.stringify record),
                      axiosCommon := w.axiosCommon.map (fun _ => some ("Bearer " ++ toStr tok)) } := by
                  simp [login, loginTry, hs, hf, ht, hu]
                rw [hworld]
                refine ⟨data, rfl, ⟨props, hprops⟩, htok.symm, ?_⟩
                rw [htok]
                simp only [isAuthenticated, hprops, hobj, Bool.and_true]

/-- Witness for C25: the sample payload, whose token is `abc`. -/
theorem login_success_authenticated_iff_witness :
    ∃ data, FetchResult.response true (.ok samplePayload) = .response true (.ok data) ∧
      (∃ props,
        (login sampleCredentials (.response true (.ok samplePayload)) (mount [] none)).1.user =
          obj props) ∧
      (login sampleCredentials (.response true (.ok samplePayload)) (mount [] none)).1.token =
        getPropOpt data "token" ∧
      isAuthenticated
        (login sampleCredentials (.response true (.ok samplePayload)) (mount [] none)).1 =
        (getPropOpt data "token").truthy :=
  login_success_authenticated_iff sampleCredentials (.response true (.ok samplePayload))
    (mount [] none) rfl

end AuthContext

namespace AuthContext

open JsVal Storage

/-- A state that holds a token is not the state `logout` leaves. -/
theorem ne_logout_of_token (w : World) (htoken : w.token.truthy = true) : w ≠ logout w := by
  intro h
  have h2 : w.token = (logout w).token := congrArg World.token h
  have h3 : (logout w).token = null := rfl
  rw [h3] at h2
  rw [h2] at htoken
  cases htoken

/-- C28, counterexample. A token is held and the validation request is
answered 2xx with the body `null`: reading `data.valid` raises, and
`validateToken` performs `logout()` although the request yielded a 2xx
response; the token of the session is gone. -/
theorem validateToken_null_body_counterexample :
    sampleLoggedIn.token = str "abc" ∧
    (validateToken (.response true (.ok null)) sampleLoggedIn).1 = logout sampleLoggedIn ∧
    (validateToken (.response true (.ok null)) sampleLoggedIn).1.token = null ∧
    getItem (validateToken (.response true (.ok null)) sampleLoggedIn).1.storage "token" =
      none ∧
    (validateToken (.response true (.ok null)) sampleLoggedIn).2 = bool false :=
  ⟨rfl, rfl, rfl, rfl, rfl⟩

/-- C28, amended. With a token present, `validateToken` performs `logout` exactly
when the request is rejected, the response is not 2xx, or reading the body
of a 2xx response or its `valid` member raises an exception; in each of
these cases it returns false. In every other case the state is unchanged;
in particular a 2xx response whose `valid` flag is false returns false and
leaves user, token and storage as they were. -/
theorem validateToken_logout_iff (r : FetchResult) (w : World)
    (htoken : w.token.truthy = true) :
    ((validateToken r w).1 = logout w ↔
      ((∃ e, r = .rejected e) ∨ (∃ json, r = .response false json) ∨
        (∃ e, r = .response true (.error e)) ∨
        (∃ data e, r = .response true (.ok data) ∧ getProp data "valid" = .error e))) ∧
    ((validateToken r w).1 = logout w → (validateToken r w).2 = bool false) ∧
    ((validateToken r w).1 ≠ logout w → (validateToken r w).1 = w) ∧
    (∀ data, getProp data "valid" = .ok (bool false) →
      validateToken (.response true (.ok data)) w = (w, bool false)) := by
  have hne : w ≠ logout w := ne_logout_of_token w htoken
  have hlast : ∀ data, getProp data "valid" = .ok (bool false) →
      validateToken (.response true (.ok data)) w = (w, bool false) := by
    intro data hv
    simp [validateToken, htoken, hv]
  rcases r with e | ⟨ok, json⟩
  · have h : validateToken (.rejected e) w = (logout w, bool false) := by
      simp [validateToken, htoken]
    rw [h]
    exact ⟨⟨fun _ => Or.inl ⟨e, rfl⟩, fun _ => rfl⟩, fun _ => rfl, fun h2 => absurd rfl h2, hlast⟩
  · cases ok
    · have h : validateToken (.response false json) w = (logout w, bool false) := by
        simp [validateToken, htoken]
      rw [h]
      exact ⟨⟨fun _ => Or.inr (Or.inl ⟨json, rfl⟩), fun _ => rfl⟩, fun _ => rfl,
        fun h2 => absurd rfl h2, hlast⟩
    · rcases json with e | data
      · have h : validateToken (.response true (.error e)) w = (logout w, bool false) := by
          simp [validateToken, htoken]
        rw [h]
        exact ⟨⟨fun _ => Or.inr (Or.inr (Or.inl ⟨e, rfl⟩)), fun _ => rfl⟩, fun _ => rfl,
          fun h2 => absurd rfl h2, hlast⟩
      · rcases hv : getProp data "valid" with e | valid
        · have h : validateToken (.response true (.ok data)) w = (logout w, bool false) := by
            simp [validateToken, htoken, hv]
          rw [h]
          exact ⟨⟨fun _ => Or.inr (Or.inr (Or.inr ⟨data, e, rfl, hv⟩)), fun _ => rfl⟩,
            fun _ => rfl, fun h2 => absurd rfl h2, hlast⟩
        · have h : validateToken (.response true (.ok data)) w = (w, valid) := by
            simp [validateToken, htoken, hv]
          rw [h]
          refine ⟨⟨fun h2 => absurd h2 hne, ?_⟩, fun h2 => absurd h2 hne, fun _ => rfl, hlast⟩
          rintro (⟨e, h2⟩ | ⟨j, h2⟩ | ⟨e, h2⟩ | ⟨d, e, h2, h3⟩)
          · cases h2
          · cases h2
          · cases h2
          · cases h2
            rw [hv] at h3
            cases h3

/-- Witness for C28: on the logged-in sample state, a `valid: false` answer
keeps the session and a network error clears it. -/
theorem validateToken_logout_iff_witness :
    validateToken (.response true (.ok (obj [("valid", bool false)]))) sampleLoggedIn =
      (sampleLoggedIn, bool false) ∧
    (validateToken (.rejected ⟨"Failed to fetch"⟩) sampleLoggedIn).1 = logout sampleLoggedIn :=
  ⟨(validateToken_logout_iff (.rejected ⟨"Failed to fetch"⟩) sampleLoggedIn rfl).2.2.2
      (obj [("valid", bool false)]) rfl,
   (validateToken_logout_iff (.rejected ⟨"Failed to fetch"⟩) sampleLoggedIn rfl).1.mpr
      (Or.inl ⟨_, rfl⟩)⟩

/-- Membership test of a permission in a list of permissions. -/
theorem includes_map_str_decide (perms : List String) (p : String) :
    includes (perms.map str) (str p) = decide (p ∈ perms) := by
  by_cases h : p ∈ perms
  · have h2 : includes (perms.map str) (str p) = true :=
      (includes_map_str perms (str p)).mpr ⟨p, h, rfl⟩
    simp [h, h2]
  · have h2 : includes (perms.map str) (str p) = false := by
      rw [Bool.eq_false_iff]
      intro h3
      obtain ⟨q, hq, heq⟩ := (includes_map_str perms (str p)).mp h3
      cases heq
      exact h hq
    simp [h, h2]

/-- C29. The table grants each role exactly its own list: for a user of
role ADMIN `hasPermission(p)` is true exactly for the six permissions of
ADMIN, for TEACHER exactly for the three of TEACHER, for STUDENT exactly for
`VIEW_OWN_ATTENDANCE`. No list contains another: ADMIN has neither
`VIEW_STUDENTS`, which TEACHER has, nor `VIEW_OWN_ATTENDANCE`, which STUDENT
has. -/
theorem rolePermissions_exact (w : World) (p : String) (huser : w.user.truthy = true) :
    (getPropOpt w.user "role" = str "ADMIN" →
      hasPermission w (str p) = .ok (decide (p ∈ ["MANAGE_USERS", "MANAGE_STUDENTS",
        "MANAGE_TEACHERS", "MANAGE_ATTENDANCE", "VIEW_REPORTS", "EXPORT_REPORTS"])) ∧
      hasPermission w (str "VIEW_STUDENTS") = .ok false ∧
      hasPermission w (str "VIEW_OWN_ATTENDANCE") = .ok false) ∧
    (getPropOpt w.user "role" = str "TEACHER" →
      hasPermission w (str p) = .ok (decide (p ∈ ["MANAGE_ATTENDANCE", "VIEW_REPORTS",
        "VIEW_STUDENTS"])) ∧
      hasPermission w (str "VIEW_STUDENTS") = .ok true) ∧
    (getPropOpt w.user "role" = str "STUDENT" →
      hasPermission w (str p) = .ok (decide (p ∈ ["VIEW_OWN_ATTENDANCE"])) ∧
      hasPermission w (str "VIEW_OWN_ATTENDANCE") = .ok true) := by
  have hrole : ∀ (role : String) (perms : List String) (q : String),
      getPropOpt w.user "role" = str role → permissionsOf role = some perms →
      hasPermission w (str q) = .ok (decide (q ∈ perms)) := by
    intro role perms q hr hp
    simp only [hasPermission, huser, hr, toStr, hp, Bool.not_true, Bool.or_false,
      includes_map_str_decide]
    rfl
  refine ⟨fun h => ⟨hrole "ADMIN" _ p h rfl, ?_, ?_⟩, fun h => ⟨hrole "TEACHER" _ p h rfl, ?_⟩,
    fun h => ⟨hrole "STUDENT" _ p h rfl, ?_⟩⟩
  · rw [hrole "ADMIN" _ "VIEW_STUDENTS" h rfl]
    rfl
  · rw [hrole "ADMIN" _ "VIEW_OWN_ATTENDANCE" h rfl]
    rfl
  · rw [hrole "TEACHER" _ "VIEW_STUDENTS" h rfl]
    rfl
  · rw [hrole "STUDENT" _ "VIEW_OWN_ATTENDANCE" h rfl]
    rfl

/-- Witness for C29: the sample ADMIN session. -/
theorem rolePermissions_exact_witness :
    hasPermission sampleLoggedIn (str "EXPORT_REPORTS") =
      .ok (decide ("EXPORT_REPORTS" ∈ ["MANAGE_USERS", "MANAGE_STUDENTS", "MANAGE_TEACHERS",
        "MANAGE_ATTENDANCE", "VIEW_REPORTS", "EXPORT_REPORTS"])) ∧
    hasPermission sampleLoggedIn (str "VIEW_STUDENTS") = .ok false ∧
    hasPermission sampleLoggedIn (str "VIEW_OWN_ATTENDANCE") = .ok false :=
  (rolePermissions_exact sampleLoggedIn "EXPORT_REPORTS" rfl).1 rfl

end AuthContext

/-! ## Sidebar and route table -/

namespace Sidebar

open JsVal AuthContext

/-- C27. For a user whose role is ADMIN, TEACHER or STUDENT, a sidebar item
is shown by `getNavigationItems` exactly when the route of its `href` in
`App` admits the role: the route has no guard of its own, or the
`requiredRole` of its guard is the role or contains it. Every sidebar item
leads to a route of `App`. With no user the sidebar shows no item. -/
theorem navigation_matches_routes (w : World) :
    (∀ role, (role = "ADMIN" ∨ role = "TEACHER" ∨ role = "STUDENT") →
      getPropOpt w.user "role" = str role →
      ∀ item, item ∈ allItems →
        (item ∈ getNavigationItems w ↔
          (App.routeGuard item.href = none ∨
            ∃ required, App.routeGuard item.href = some required ∧
              hasRole w required = true))) ∧
    (∀ item, item ∈ allItems → item.href ∈ App.routes.map Prod.fst) ∧
    (w.user.isNullish = true → getNavigationItems w = []) := by
  refine ⟨?_, ?_, ?_⟩
  · intro role hrole huser item hitem
    simp only [allItems, commonItems, adminItems, studentItems, List.cons_append,
      List.nil_append, List.mem_cons, List.mem_singleton, List.not_mem_nil, or_false] at hitem
    rcases hrole with rfl | rfl | rfl <;>
      rcases hitem with rfl | rfl | rfl | rfl | rfl | rfl | rfl | rfl <;>
        simp [getNavigationItems, allItems, commonItems, adminItems, studentItems, huser,
          includes, strictEq, App.routeGuard, App.routes, hasRole]
  · intro item hitem
    simp only [allItems, commonItems, adminItems, studentItems, List.cons_append,
      List.nil_append, List.mem_cons, List.mem_singleton, List.not_mem_nil, or_false] at hitem
    rcases hitem with rfl | rfl | rfl | rfl | rfl | rfl | rfl | rfl <;> simp [App.routes]
  · intro hnull
    have hrole : getPropOpt w.user "role" = undefined := by
      cases hw : w.user <;> simp_all [getPropOpt, isNullish]
    simp [getNavigationItems, allItems, commonItems, adminItems, studentItems, hrole, includes,
      strictEq]

/-- Witness for C27: the STUDENT session sees `My Attendance` and not
`Teachers`; a provider without user sees nothing. -/
theorem navigation_matches_routes_witness :
    ((⟨"My Attendance", "/my-attendance", ["STUDENT"]⟩ : NavItem) ∈
        getNavigationItems App.sampleStudent ↔
      (App.routeGuard "/my-attendance" = none ∨
        ∃ required, App.routeGuard "/my-attendance" = some required ∧
          hasRole App.sampleStudent required = true)) ∧
    getNavigationItems (AuthContext.mount [] none) = [] :=
  ⟨(navigation_matches_routes App.sampleStudent).1 "STUDENT" (Or.inr (Or.inr rfl)) rfl
      ⟨"My Attendance", "/my-attendance", ["STUDENT"]⟩ (by decide),
   (navigation_matches_routes (AuthContext.mount [] none)).2.2 rfl⟩

end Sidebar

/-! ## Report export -/

namespace Reports

open JsVal

/-- C26, evaluated at the failing inputs. With the filters of March 2024,
`handleExport("excel")` and `handleExport("pdf")` download nothing and show
the failure alert: reading `csvContent`, whose declaration belongs to the
`csv` case and has not run, raises. `handleExport("csv")` downloads the one
`.csv` file and shows the success alert. -/
theorem handleExport_excel_pdf_fail :
    ((handleExport "excel" sampleReports).downloads = [] ∧
      (handleExport "excel" sampleReports).alerts =
        ["Failed to generate EXCEL report. Please try again."] ∧
      own "excel" (handleExport "excel" sampleReports).isGenerating = some (bool false)) ∧
    ((handleExport "pdf" sampleReports).downloads = [] ∧
      (handleExport "pdf" sampleReports).alerts =
        ["Failed to generate PDF report. Please try again."] ∧
      own "pdf" (handleExport "pdf" sampleReports).isGenerating = some (bool false)) ∧
    ((handleExport "csv" sampleReports).downloads =
        [{ filename := "attendance_report_2024-03-01_2024-03-31.csv", mimeType := "text/csv",
           content := csvText }] ∧
      (handleExport "csv" sampleReports).alerts = ["CSV report generated successfully!"]) :=
  ⟨⟨rfl, rfl, rfl⟩, ⟨rfl, rfl, rfl⟩, rfl, rfl⟩

/-- For every state, the `excel` and `pdf` exports add no download, and the
`csv` export adds exactly one, named after the two dates of the filters. -/
theorem handleExport_downloads (s : ReportsWorld) :
    (handleExport "excel" s).downloads = s.downloads ∧
    (handleExport "pdf" s).downloads = s.downloads ∧
    (handleExport "csv" s).downloads = s.downloads ++
      [{ filename := "attendance_report_" ++ s.filters.startDate ++ "_" ++ s.filters.endDate ++
           ".csv",
         mimeType := "text/csv", content := csvText }] :=
  ⟨rfl, rfl, rfl⟩

/-- For every format and state, `handleExport` ends with the flag of the
format false and the flags of the other formats as they were. -/
theorem handleExport_flags (format : String) (s : ReportsWorld) :
    own format (handleExport format s).isGenerating = some (bool false) ∧
    ∀ k, k ≠ format → own k (handleExport format s).isGenerating = own k s.isGenerating := by
  have h : (handleExport format s).isGenerating =
      JSON.setProp format (bool false) (JSON.setProp format (bool true) s.isGenerating) := by
    simp only [handleExport]
    split <;> rfl
  rw [h]
  refine ⟨own_setProp_self _ _ _, fun k hk => ?_⟩
  rw [own_setProp_ne _ _ _ _ hk, own_setProp_ne _ _ _ _ hk]

end Reports

/-! ## Attendance marking -/

namespace JsVal

/-- An own member is what `lookup` reads. -/
theorem lookup_of_own (k : String) (v : JsVal) (props : List (String × JsVal))
    (h : own k props = some v) : lookup k props = v := by
  induction props with
  | nil => cases h
  | cons e rest ih =>
    obtain ⟨k1, v1⟩ := e
    by_cases h1 : k1 = k
    · simp only [own, List.find?_cons, h1, decide_True, Option.map_some', Option.some.injEq] at h
      simp [lookup, h1, h]
    · simp only [own, List.find?_cons, h1, decide_False] at h ih
      simp only [lookup, h1, if_false]
      exact ih h

/-- Setting a member that is present keeps the keys and their order. -/
theorem keys_setProp_of_own (k : String) (v : JsVal) (props : List (String × JsVal))
    (h : (own k props).isSome = true) :
    (JSON.setProp k v props).map Prod.fst = props.map Prod.fst := by
  induction props with
  | nil => cases h
  | cons e rest ih =>
    obtain ⟨k1, v1⟩ := e
    by_cases h1 : k1 = k
    · simp [JSON.setProp, h1]
    · simp only [own, List.find?_cons, h1, decide_False] at h ih
      simp only [JSON.setProp, h1, if_false, List.map_cons, List.cons.injEq, true_and]
      exact ih h

end JsVal

namespace Attendance

open JsVal

/-- The effect of replacing one member of the record of one student. -/
theorem update_member_frame (field : String) (studentId value : JsVal)
    (prev record : List (String × JsVal))
    (hpresent : own (toStr studentId) prev = some (obj record)) :
    own (toStr studentId)
        (JSON.setProp (toStr studentId)
          (obj (JSON.setProp field value (ownEntries (lookup (toStr studentId) prev)))) prev) =
      some (obj (JSON.setProp field value record)) ∧
    own field (JSON.setProp field value record) = some value ∧
    (∀ other, other ≠ field → own other (JSON.setProp field value record) = own other record) ∧
    (∀ k, k ≠ toStr studentId →
      own k (JSON.setProp (toStr studentId)
          (obj (JSON.setProp field value (ownEntries (lookup (toStr studentId) prev)))) prev) =
        own k prev) ∧
    (JSON.setProp (toStr studentId)
        (obj (JSON.setProp field value (ownEntries (lookup (toStr studentId) prev))))
        prev).map Prod.fst = prev.map Prod.fst := by
  have hlook : lookup (toStr studentId) prev = obj record := lookup_of_own _ _ _ hpresent
  rw [hlook]
  refine ⟨own_setProp_self _ _ _, own_setProp_self _ _ _,
    fun other h => own_setProp_ne _ _ _ _ h, fun k h => own_setProp_ne _ _ _ _ h, ?_⟩
  apply keys_setProp_of_own
  rw [hpresent]
  rfl

/-- C30. For an attendance map in which student `s` has a record,
`handleAttendanceChange(s, v)` yields a map in which the record of `s` has
status `v` and every other member, the remarks among them, as before;
the record of every other student is unchanged and the students of the map
are the same. `handleRemarksChange(s, r)` does the same for the remarks of
`s`, leaving the status. -/
theorem attendance_change_frame (studentId value : JsVal)
    (prev record : List (String × JsVal))
    (hpresent : own (toStr studentId) prev = some (obj record)) :
    (∃ updated,
      own (toStr studentId) (handleAttendanceChange studentId value prev) = some (obj updated) ∧
      own "status" updated = some value ∧
      own "remarks" updated = own "remarks" record ∧
      (∀ other, other ≠ "status" → own other updated = own other record)) ∧
    (∀ k, k ≠ toStr studentId →
      own k (handleAttendanceChange studentId value prev) = own k prev) ∧
    (handleAttendanceChange studentId value prev).map Prod.fst = prev.map Prod.fst ∧
    (∃ updated,
      own (toStr studentId) (handleRemarksChange studentId value prev) = some (obj updated) ∧
      own "remarks" updated = some value ∧
      own "status" updated = own "status" record ∧
      (∀ other, other ≠ "remarks" → own other updated = own other record)) ∧
    (∀ k, k ≠ toStr studentId →
      own k (handleRemarksChange studentId value prev) = own k prev) ∧
    (handleRemarksChange studentId value prev).map Prod.fst = prev.map Prod.fst := by
  have hs := update_member_frame "status" studentId value prev record hpresent
  have hr := update_member_frame "remarks" studentId value prev record hpresent
  exact ⟨⟨_, hs.1, hs.2.1, hs.2.2.1 "remarks" (by decide), hs.2.2.1⟩, hs.2.2.2.1, hs.2.2.2.2,
    ⟨_, hr.1, hr.2.1, hr.2.2.1 "status" (by decide), hr.2.2.1⟩, hr.2.2.2.1, hr.2.2.2.2⟩

/-- Witness for C30: student 2 of the sample map is marked absent. -/
theorem attendance_change_frame_witness :
    own "1" (handleAttendanceChange (num 2) (str "ABSENT") sampleAttendance) =
      own "1" sampleAttendance ∧
    (handleAttendanceChange (num 2) (str "ABSENT") sampleAttendance).map Prod.fst =
      sampleAttendance.map Prod.fst ∧
    own "1" (handleRemarksChange (num 2) (str "sick") sampleAttendance) =
      own "1" sampleAttendance :=
  ⟨(attendance_change_frame (num 2) (str "ABSENT") sampleAttendance
      [("status", str "PRESENT"), ("remarks", str "late bus")] rfl).2.1 "1" (by decide),
   (attendance_change_frame (num 2) (str "ABSENT") sampleAttendance
      [("status", str "PRESENT"), ("remarks", str "late bus")] rfl).2.2.1,
   (attendance_change_frame (num 2) (str "sick") sampleAttendance
      [("status", str "PRESENT"), ("remarks", str "late bus")] rfl).2.2.2.2.1 "1" (by decide)⟩

end Attendance
